import Mathlib

/-!
Verification of the 1&1 (oneandone) Ansible storage modules:
`oneandone_block_storage.py`, `oneandone_shared_storage.py`,
`oneandone_ssh_key.py` (lib/ansible/modules/cloud/oneandone/).

Each Python module is shallowly embedded as a Lean function that threads an
explicit trace of the SDK calls it issues on the `oneandone_conn` connection.
The remote provider (the 1and1 SDK) is a parameter `Env`: it decides what the
resolver helpers find and what each mutating SDK call returns, so theorems
quantify over every possible remote behaviour.

Helpers that live in `lib/ansible/module_utils` (the resource resolvers
`get_block_storage` / `get_shared_storage` / `get_ssh_key` / `get_server`,
the `wait_for_resource_creation_completion` poller, and the `AnsibleModule`
argument validation) are not part of the three source files; they are
modelled from the spec, and each such definition is marked
`Modelled from the spec:` in its doc comment.

Control-flow conventions of the embedding:
  * `module.exit_json(changed=v)` from `_check_mode`  ↦  `Outcome.exited v`;
  * `module.fail_json(msg=m)` and uncaught Python exceptions that the
    enclosing `try/except` converts into `fail_json`  ↦  `Outcome.failed m`;
  * a module function reaching its `return (changed, resource)` and `main`
    reaching its final `module.exit_json(changed=..., <resource>=...)`
    ↦  `Outcome.returned (changed, resource)`.
Python truthiness of optional strings / ints / lists is modelled by the
`truthy*` helpers (`None` and empty values are falsy).
-/

namespace OneAndOne

/-- A provider resource snapshot: the modules only ever read the `id` and
`name` fields of the dictionaries the SDK returns. -/
structure Resource where
  id : String
  name : String
  deriving DecidableEq, Repr

/-- One entry of the shared-storage `servers` parameter: `{id, rights}`. -/
structure ServerSpec where
  id : String
  rights : String
  deriving DecidableEq, Repr

/-- A Python value passed as `changed=` to `exit_json`.  The sources pass
booleans in most places but also raw lookup results (strings, resource
dictionaries, server lists, `None`). -/
inductive Value where
  | none
  | bool (b : Bool)
  | str (s : String)
  | res (r : Resource)
  | list (l : List ServerSpec)
  deriving DecidableEq, Repr

/-- Whether a `Value` is an actual Python boolean. -/
def Value.isBool : Value → Bool
  | .bool _ => true
  | _ => false

/-- The `state` module parameter: `choices=['present', 'absent', 'update']`. -/
inductive ModuleState where
  | present
  | absent
  | update
  deriving DecidableEq, Repr

/-- Every call the three modules can issue on the SDK connection
(`oneandone_conn`), reads included. -/
inductive SdkCall where
  | getBlockStorage (ident : Option String) (full : Bool)
  | getServer (ident : Option String)
  | getSharedStorage (ident : Option String) (full : Bool)
  | getSharedStorageServer (storage : Option Resource) (serverId : Option String)
  | getSshKey (ident : Option String) (full : Bool)
  | getSshKeyById (id : String)
  | createBlockStorage (name description : Option String) (size : Option Nat)
      (datacenterId serverId : Option String)
  | modifyBlockStorage (id : String) (name description : Option String)
  | attachBlockStorage (id : String) (serverId : Option String)
  | detachBlockStorage (id : String)
  | deleteBlockStorage (ident : Option String)
  | createSharedStorage (name description : Option String) (size : Option Nat)
      (datacenterId : Option String)
  | modifySharedStorage (id : String) (name description : Option String) (size : Option Nat)
  | changePassword (password : String)
  | attachServerSharedStorage (id : String) (servers : List ServerSpec)
  | detachServerSharedStorage (id : String) (serverId : Option String)
  | deleteSharedStorage (ident : Option String)
  | createSshKey (name description publicKey : Option String)
  | modifySshKey (id : String) (name description : Option String)
  | deleteSshKey (id : String)
  deriving DecidableEq, Repr

/-- Whether an SDK call mutates remote state (create / modify / delete /
attach / detach / password change), as opposed to a read. -/
def SdkCall.isMutating : SdkCall → Bool
  | .getBlockStorage _ _ => false
  | .getServer _ => false
  | .getSharedStorage _ _ => false
  | .getSharedStorageServer _ _ => false
  | .getSshKey _ _ => false
  | .getSshKeyById _ => false
  | _ => true

/-- The mutating calls of a trace. -/
def mutCalls (tr : List SdkCall) : List SdkCall := tr.filter SdkCall.isMutating

/-- How a module run ends (see the conventions in the file header). -/
inductive Outcome (α : Type) where
  | exited (changed : Value)
  | failed (msg : String)
  | returned (a : α)
  deriving DecidableEq, Repr

/-- The result type of every embedded module function: an outcome together
with the trace of SDK calls issued so far. -/
abbrev MRes (α : Type) := Outcome α × List SdkCall

/-- Python truthiness of an optional string: `None` and `''` are falsy. -/
def truthy : Option String → Bool
  | Option.none => false
  | some s => !s.isEmpty

/-- Python truthiness of an optional int: `None` and `0` are falsy. -/
def truthyN : Option Nat → Bool
  | Option.none => false
  | some n => n != 0

/-- Python `'%s' % x` for an optional string (`None` prints as `None`). -/
def optStr : Option String → String
  | Option.none => "None"
  | some s => s

/-- Python `x['id']` on a value that may be `None`: subscripting `None`
raises `TypeError`, which the enclosing `try/except` turns into
`fail_json`. -/
def subscriptId : Option Resource → Except String String
  | Option.none => Except.error "TypeError: NoneType object is not subscriptable"
  | some r => Except.ok r.id

/-- The `changed=` value for an optional string (e.g. `_check_mode(module, name)`). -/
def valueOfOptStr : Option String → Value
  | Option.none => Value.none
  | some s => Value.str s

/-- The `changed=` value for an optional resource lookup result. -/
def valueOfOptRes : Option Resource → Value
  | Option.none => Value.none
  | some r => Value.res r

/-- Status of a provider resource while provisioning (spec §3: a coarse
state such as creating / active / error). -/
inductive ResStatus where
  | creating
  | active
  | error
  deriving DecidableEq, Repr

/-- Result of the completion waiter: either the resource left the
transitional state at elapsed time `t` after `polls` polls, or the wait
timed out after `polls` polls. -/
inductive WaitOutcome where
  | completed (t : Nat) (polls : Nat)
  | timedOut (polls : Nat)
  deriving DecidableEq, Repr

/-- Modelled from the spec: the loop of `wait_for_resource_creation_completion`
(`lib/ansible/module_utils/oneandone.py`, not under src/).  Per spec §4.3:
poll the resource's status at fixed `interval` seconds; terminate
successfully as soon as the status leaves the transitional "creating"
state; terminate with `TimeoutError` once the elapsed time exceeds
`timeout`.  Each iteration first checks the elapsed time against the
timeout, then sleeps `interval` seconds and polls once.  `fuel` only bounds
the recursion; the wrapper supplies fuel that is never exhausted when
`interval ≥ 1`. -/
def waitLoop (statusAt : Nat → ResStatus) (timeout interval : Nat) :
    Nat → Nat → Nat → WaitOutcome
  | 0, _, polls => .timedOut polls
  | fuel + 1, elapsed, polls =>
    if timeout < elapsed then .timedOut polls
    else
      let t := elapsed + interval
      if statusAt t ≠ .creating then .completed t (polls + 1)
      else waitLoop statusAt timeout interval fuel t (polls + 1)

/-- Modelled from the spec: `wait_for_resource_creation_completion`
(`lib/ansible/module_utils/oneandone.py`, not under src/), entered at
elapsed time 0 with no polls made yet. -/
def wait_for_resource_creation_completion (statusAt : Nat → ResStatus)
    (timeout interval : Nat) : WaitOutcome :=
  waitLoop statusAt timeout interval (timeout + 2) 0 0

/-- The waiter as used inside the create/update flows: a timeout raises an
exception, which the enclosing `try/except` turns into `fail_json`. -/
def waitExcept (statusAt : Nat → ResStatus) (timeout interval : Nat) :
    Except String Unit :=
  match wait_for_resource_creation_completion statusAt timeout interval with
  | .completed _ _ => Except.ok ()
  | .timedOut _ => Except.error "Timed out waiting for resource creation completion."

/-- The remote provider: what each resolver lookup finds and what each
mutating SDK call returns.  Mutating calls return `Except.error msg` when the
SDK raises, and `Except.ok r` with `r` the (possibly `None`) returned
dictionary otherwise. -/
structure Env where
  blockStorages : Option String → Option Resource
  servers : Option String → Option Resource
  sharedStorages : Option String → Option Resource
  sharedStorageServers : Option Resource → Option String → Option Resource
  sshKeys : Option String → Option Resource
  statusAt : String → Nat → ResStatus
  createBlockStorageR : Option String → Option String → Option Nat →
    Option String → Option String → Except String (Option Resource)
  modifyBlockStorageR : String → Option String → Option String →
    Except String (Option Resource)
  attachBlockStorageR : String → Option String → Except String (Option Resource)
  detachBlockStorageR : String → Except String (Option Resource)
  deleteBlockStorageR : Option String → Except String (Option Resource)
  createSharedStorageR : Option String → Option String → Option Nat →
    Option String → Except String (Option Resource)
  modifySharedStorageR : String → Option String → Option String → Option Nat →
    Except String (Option Resource)
  changePasswordR : String → Except String (Option Resource)
  attachServerSharedStorageR : String → List ServerSpec → Except String (Option Resource)
  detachServerSharedStorageR : String → Option String → Except String (Option Resource)
  deleteSharedStorageR : Option String → Except String (Option Resource)
  createSshKeyR : Option String → Option String → Option String →
    Except String (Option Resource)
  modifySshKeyR : String → Option String → Option String →
    Except String (Option Resource)
  deleteSshKeyR : String → Except String (Option Resource)

/-- Parameters of `oneandone_block_storage` (its `argument_spec`), minus the
connection parameters `auth_token` / `api_url` which only build the
connection object. -/
structure BlockStorageParams where
  auth_token : Option String := Option.none
  name : Option String := Option.none
  block_storage : Option String := Option.none
  description : Option String := Option.none
  size : Option Nat := Option.none
  datacenter_id : Option String := Option.none
  server_id : Option String := Option.none
  attach : Bool := false
  detach : Bool := false
  wait : Bool := true
  wait_timeout : Nat := 600
  wait_interval : Nat := 5
  state : ModuleState := .present
  deriving DecidableEq, Repr

/-! ## oneandone_block_storage.py -/

/-- The detach step of `update_block_storage` (`if detach:` ... ) and the
final `return (changed, block_storage)`.  `bs` is the current value of the
Python local `block_storage`, `changed` of `changed`.  The SDK exception
inside `_detach_block_storage` is caught there and turned into `fail_json`;
after the detach the source re-reads the full object with
`get_block_storage(oneandone_conn, block_storage['id'], True)`. -/
def upd_bs_detach (env : Env) (check_mode : Bool) (p : BlockStorageParams)
    (tr : List SdkCall) (bs : Option Resource) (changed : Bool) :
    MRes (Bool × Option Resource) :=
  if p.detach then
    if check_mode then (.exited (.bool true), tr)
    else
      match subscriptId bs with
      | .error e => (.failed e, tr)
      | .ok bsid =>
        let tr := tr ++ [SdkCall.detachBlockStorage bsid]
        match env.detachBlockStorageR bsid with
        | .error e => (.failed e, tr)
        | .ok _ =>
          let tr := tr ++ [SdkCall.getBlockStorage (some bsid) true]
          (.returned (true, env.blockStorages (some bsid)), tr)
  else (.returned (changed, bs), tr)

/-- The attach step of `update_block_storage` (`if attach:` ... ).  In check
mode the source looks the server up with `get_server(oneandone_conn,
server_id)` (id form) and exits with that raw lookup result as `changed=`;
otherwise `_attach_block_storage` issues the attach call, turning an SDK
exception into `fail_json`. -/
def upd_bs_attach (env : Env) (check_mode : Bool) (p : BlockStorageParams)
    (tr : List SdkCall) (bs : Option Resource) (changed : Bool) :
    MRes (Bool × Option Resource) :=
  if p.attach then
    if check_mode then
      let tr := tr ++ [SdkCall.getServer p.server_id]
      (.exited (valueOfOptStr ((env.servers p.server_id).map Resource.id)), tr)
    else
      match subscriptId bs with
      | .error e => (.failed e, tr)
      | .ok bsid =>
        let tr := tr ++ [SdkCall.attachBlockStorage bsid p.server_id]
        match env.attachBlockStorageR bsid p.server_id with
        | .error e => (.failed e, tr)
        | .ok bs2 => upd_bs_detach env check_mode p tr bs2 true
  else upd_bs_detach env check_mode p tr bs changed

/-- The rename/describe step of `update_block_storage`
(`if name or description:` ... `modify_block_storage`). -/
def upd_bs_name_desc (env : Env) (check_mode : Bool) (p : BlockStorageParams)
    (tr : List SdkCall) (bs : Option Resource) :
    MRes (Bool × Option Resource) :=
  if truthy p.name || truthy p.description then
    if check_mode then (.exited (.bool true), tr)
    else
      match subscriptId bs with
      | .error e => (.failed e, tr)
      | .ok bsid =>
        let tr := tr ++ [SdkCall.modifyBlockStorage bsid p.name p.description]
        match env.modifyBlockStorageR bsid p.name p.description with
        | .error e => (.failed e, tr)
        | .ok bs2 => upd_bs_attach env check_mode p tr bs2 true
  else upd_bs_attach env check_mode p tr bs false

/-- `update_block_storage(module, oneandone_conn)`: resolve the storage with
`get_block_storage(oneandone_conn, block_storage_id, True)`, exit
`changed=False` in check mode when it is missing, then apply the
rename/describe, attach and detach steps in order. -/
def update_block_storage (env : Env) (check_mode : Bool) (p : BlockStorageParams) :
    MRes (Bool × Option Resource) :=
  let tr := [SdkCall.getBlockStorage p.block_storage true]
  let bs := env.blockStorages p.block_storage
  if check_mode && bs.isNone then (.exited (.bool false), tr)
  else upd_bs_name_desc env check_mode p tr bs

/-- `create_block_storage(module, oneandone_conn)`: build the local
`BlockStorage` object, exit `changed=True` in check mode, issue the create
call, optionally wait for completion (a timeout fails the module), and
return `changed = bool(block_storage)`. -/
def create_block_storage (env : Env) (check_mode : Bool) (p : BlockStorageParams) :
    MRes (Bool × Option Resource) :=
  if check_mode then (.exited (.bool true), [])
  else
    let tr := [SdkCall.createBlockStorage p.name p.description p.size
      p.datacenter_id p.server_id]
    match env.createBlockStorageR p.name p.description p.size
      p.datacenter_id p.server_id with
    | .error e => (.failed e, tr)
    | .ok bs =>
      if p.wait then
        match subscriptId bs with
        | .error e => (.failed e, tr)
        | .ok bsid =>
          match waitExcept (env.statusAt bsid) p.wait_timeout p.wait_interval with
          | .error e => (.failed e, tr)
          | .ok _ => (.returned (bs.isSome, bs), tr)
      else (.returned (bs.isSome, bs), tr)

/-- `remove_block_storage(module, oneandone_conn)`: resolve the id with
`get_block_storage(oneandone_conn, name)` (id form), exit in check mode,
then issue the delete call with the resolved id — even when the resolver
found nothing and the id is `None`.  Subscripting a falsy delete result
raises `TypeError` → `fail_json`. -/
def remove_block_storage (env : Env) (check_mode : Bool) (p : BlockStorageParams) :
    MRes (Bool × Option Resource) :=
  let tr := [SdkCall.getBlockStorage p.name false]
  let bsid := (env.blockStorages p.name).map Resource.id
  if check_mode then
    if bsid.isNone then (.exited (.bool false), tr) else (.exited (.bool true), tr)
  else
    let tr := tr ++ [SdkCall.deleteBlockStorage bsid]
    match env.deleteBlockStorageR bsid with
    | .error e => (.failed e, tr)
    | .ok bs =>
      match bs with
      | Option.none => (.failed "TypeError: NoneType object is not subscriptable", tr)
      | some r => (.returned (true, some { id := r.id, name := r.name }), tr)

/-- Modelled from the spec: the `AnsibleModule` argument validation of the
host framework (`lib/ansible/module_utils/basic.py`, not under src/) for the
declarations in `oneandone_block_storage.main`:
`mutually_exclusive=(['attach', 'detach'],)` rejects attach and detach
requested together, and `required_together=(['attach', 'server_id'],)`
realises spec §4.2 "Attach requires a target server identifier" — both
before the module body runs, hence before any remote call. -/
def validate_block_args (p : BlockStorageParams) : Option String :=
  if p.attach && p.detach then some "parameters are mutually exclusive: attach|detach"
  else if p.attach && !truthy p.server_id then
    some "parameters are required together: attach, server_id"
  else Option.none

/-- `main()` of `oneandone_block_storage.py`: argument validation, the
`auth_token` check, then dispatch on `state` with its per-state required
parameters.  `Outcome.returned` is the final
`module.exit_json(changed=changed, block_storage=block_storage)`. -/
def block_storage_main (env : Env) (check_mode : Bool) (p : BlockStorageParams) :
    MRes (Bool × Option Resource) :=
  match validate_block_args p with
  | some msg => (.failed msg, [])
  | Option.none =>
    if !truthy p.auth_token then (.failed "auth_token parameter is required.", [])
    else
      match p.state with
      | .absent =>
        if !truthy p.name then
          (.failed "'name' parameter is required to delete a block storage.", [])
        else remove_block_storage env check_mode p
      | .update =>
        if !truthy p.block_storage then
          (.failed "'block_storage' parameter is required to update a block storage.", [])
        else update_block_storage env check_mode p
      | .present =>
        if !truthy p.name then
          (.failed "name parameter is required for a new block storage.", [])
        else if !truthyN p.size then
          (.failed "size parameter is required for a new block storage.", [])
        else create_block_storage env check_mode p

/-! ## oneandone_shared_storage.py -/

/-- Parameters of `oneandone_shared_storage` (its `argument_spec`). -/
structure SharedStorageParams where
  auth_token : Option String := Option.none
  name : Option String := Option.none
  shared_storage : Option String := Option.none
  description : Option String := Option.none
  size : Option Nat := Option.none
  datacenter_id : Option String := Option.none
  servers : List ServerSpec := []
  server_id : Option String := Option.none
  password : Option String := Option.none
  attach : Bool := false
  detach : Bool := false
  wait : Bool := true
  wait_timeout : Nat := 600
  wait_interval : Nat := 5
  state : ModuleState := .present
  deriving DecidableEq, Repr

/-- The helper `_detach_shared_storage(module, oneandone_conn,
shared_storage_id, server_id)`: issues the detach call and turns an SDK
exception into `fail_json`.  Its only call site in `update_shared_storage`
passes just three positional arguments, so this body is never reached (see
`upd_ss_detach`); it is embedded for completeness. -/
def detach_shared_storage_helper (env : Env) (tr : List SdkCall)
    (shared_storage_id : String) (server_id : Option String) :
    MRes (Option Resource) :=
  let tr := tr ++ [SdkCall.detachServerSharedStorage shared_storage_id server_id]
  match env.detachServerSharedStorageR shared_storage_id server_id with
  | .error e => (.failed e, tr)
  | .ok ss => (.returned ss, tr)

/-- The detach step of `update_shared_storage` (`if detach:` ... ).  In
check mode the source reads `get_shared_storage_server(oneandone_conn,
shared_storage, server_id)` and exits with that raw lookup result.
Outside check mode the source calls
`_detach_shared_storage(module, oneandone_conn, shared_storage['id'])` —
three positional arguments for a helper whose signature requires four
(`module, oneandone_conn, shared_storage_id, server_id`).  Python evaluates
the argument `shared_storage['id']` first (a `TypeError` if the storage is
`None`), then raises `TypeError: missing 1 required positional argument`
before the helper body runs; either way the enclosing `except Exception`
turns it into `fail_json`, and no detach SDK call is ever issued. -/
def upd_ss_detach (env : Env) (check_mode : Bool) (p : SharedStorageParams)
    (tr : List SdkCall) (ss : Option Resource) (changed : Bool) :
    MRes (Bool × Option Resource) :=
  if p.detach then
    if check_mode then
      let tr := tr ++ [SdkCall.getSharedStorageServer ss p.server_id]
      (.exited (valueOfOptRes (env.sharedStorageServers ss p.server_id)), tr)
    else
      match subscriptId ss with
      | .error e => (.failed e, tr)
      | .ok _ =>
        (.failed "TypeError: _detach_shared_storage() missing 1 required positional argument: 'server_id'", tr)
  else (.returned (changed, ss), tr)

/-- The attach step of `update_shared_storage` (`if attach:` ... ): in check
mode the source exits with the raw `servers` parameter as `changed=`;
otherwise `_attach_shared_storage` issues
`attach_server_shared_storage(shared_storage_id=..., server_ids=servers)`,
turning an SDK exception into `fail_json`. -/
def upd_ss_attach (env : Env) (check_mode : Bool) (p : SharedStorageParams)
    (tr : List SdkCall) (ss : Option Resource) (changed : Bool) :
    MRes (Bool × Option Resource) :=
  if p.attach then
    if check_mode then (.exited (.list p.servers), tr)
    else
      match subscriptId ss with
      | .error e => (.failed e, tr)
      | .ok ssid =>
        let tr := tr ++ [SdkCall.attachServerSharedStorage ssid p.servers]
        match env.attachServerSharedStorageR ssid p.servers with
        | .error e => (.failed e, tr)
        | .ok ss2 => upd_ss_detach env check_mode p tr ss2 true
  else upd_ss_detach env check_mode p tr ss changed

/-- The password step of `update_shared_storage` (`if password:` ...
`oneandone_conn.change_password(password)` — the source passes only the
password, no storage id). -/
def upd_ss_password (env : Env) (check_mode : Bool) (p : SharedStorageParams)
    (tr : List SdkCall) (ss : Option Resource) (changed : Bool) :
    MRes (Bool × Option Resource) :=
  match p.password with
  | some pw =>
    if pw.isEmpty then upd_ss_attach env check_mode p tr ss changed
    else if check_mode then (.exited (.bool true), tr)
    else
      let tr := tr ++ [SdkCall.changePassword pw]
      match env.changePasswordR pw with
      | .error e => (.failed e, tr)
      | .ok ss2 => upd_ss_attach env check_mode p tr ss2 true
  | Option.none => upd_ss_attach env check_mode p tr ss changed

/-- The rename/describe/resize step of `update_shared_storage`
(`if name or description or size:` ... `modify_shared_storage`). -/
def upd_ss_name_desc_size (env : Env) (check_mode : Bool) (p : SharedStorageParams)
    (tr : List SdkCall) (ss : Option Resource) :
    MRes (Bool × Option Resource) :=
  if truthy p.name || truthy p.description || truthyN p.size then
    if check_mode then (.exited (.bool true), tr)
    else
      match subscriptId ss with
      | .error e => (.failed e, tr)
      | .ok ssid =>
        let tr := tr ++ [SdkCall.modifySharedStorage ssid p.name p.description p.size]
        match env.modifySharedStorageR ssid p.name p.description p.size with
        | .error e => (.failed e, tr)
        | .ok ss2 => upd_ss_password env check_mode p tr ss2 true
  else upd_ss_password env check_mode p tr ss false

/-- `update_shared_storage(module, oneandone_conn)`: resolve the storage
with `get_shared_storage(oneandone_conn, shared_storage_id, True)`, exit
`changed=False` in check mode when it is missing, then apply the
rename/describe/resize, password, attach and detach steps in order. -/
def update_shared_storage (env : Env) (check_mode : Bool) (p : SharedStorageParams) :
    MRes (Bool × Option Resource) :=
  let tr := [SdkCall.getSharedStorage p.shared_storage true]
  let ss := env.sharedStorages p.shared_storage
  if check_mode && ss.isNone then (.exited (.bool false), tr)
  else upd_ss_name_desc_size env check_mode p tr ss

/-- `create_shared_storage(module, oneandone_conn)`: build the local
`SharedStorage` object, exit `changed=True` in check mode, issue the create
call, optionally wait for completion, and return
`changed = bool(shared_storage)`. -/
def create_shared_storage (env : Env) (check_mode : Bool) (p : SharedStorageParams) :
    MRes (Bool × Option Resource) :=
  if check_mode then (.exited (.bool true), [])
  else
    let tr := [SdkCall.createSharedStorage p.name p.description p.size p.datacenter_id]
    match env.createSharedStorageR p.name p.description p.size p.datacenter_id with
    | .error e => (.failed e, tr)
    | .ok ss =>
      if p.wait then
        match subscriptId ss with
        | .error e => (.failed e, tr)
        | .ok ssid =>
          match waitExcept (env.statusAt ssid) p.wait_timeout p.wait_interval with
          | .error e => (.failed e, tr)
          | .ok _ => (.returned (ss.isSome, ss), tr)
      else (.returned (ss.isSome, ss), tr)

/-- `remove_shared_storage(module, oneandone_conn)`: resolve the id with
`get_shared_storage(oneandone_conn, name)` (id form), exit in check mode,
then issue the delete call with the resolved id — even when the resolver
found nothing and the id is `None`. -/
def remove_shared_storage (env : Env) (check_mode : Bool) (p : SharedStorageParams) :
    MRes (Bool × Option Resource) :=
  let tr := [SdkCall.getSharedStorage p.name false]
  let ssid := (env.sharedStorages p.name).map Resource.id
  if check_mode then
    if ssid.isNone then (.exited (.bool false), tr) else (.exited (.bool true), tr)
  else
    let tr := tr ++ [SdkCall.deleteSharedStorage ssid]
    match env.deleteSharedStorageR ssid with
    | .error e => (.failed e, tr)
    | .ok ss =>
      match ss with
      | Option.none => (.failed "TypeError: NoneType object is not subscriptable", tr)
      | some r => (.returned (true, some { id := r.id, name := r.name }), tr)

/-- Modelled from the spec: the `AnsibleModule` argument validation for the
declarations in `oneandone_shared_storage.main`:
`mutually_exclusive=(['attach', 'detach'],)` and
`required_together=(['attach', 'servers'], ['detach', 'server_id'],)` —
spec §4.2: "Attach requires a target server identifier (or list, for shared
storage); detach requires a server identifier only for shared storage" —
all checked before the module body runs. -/
def validate_shared_args (p : SharedStorageParams) : Option String :=
  if p.attach && p.detach then some "parameters are mutually exclusive: attach|detach"
  else if p.attach && p.servers.isEmpty then
    some "parameters are required together: attach, servers"
  else if p.detach && !truthy p.server_id then
    some "parameters are required together: detach, server_id"
  else Option.none

/-- `main()` of `oneandone_shared_storage.py`: argument validation, the
`auth_token` check, then dispatch on `state` with its per-state required
parameters. -/
def shared_storage_main (env : Env) (check_mode : Bool) (p : SharedStorageParams) :
    MRes (Bool × Option Resource) :=
  match validate_shared_args p with
  | some msg => (.failed msg, [])
  | Option.none =>
    if !truthy p.auth_token then (.failed "auth_token parameter is required.", [])
    else
      match p.state with
      | .absent =>
        if !truthy p.name then
          (.failed "'name' parameter is required to delete a shared storage.", [])
        else remove_shared_storage env check_mode p
      | .update =>
        if !truthy p.shared_storage then
          (.failed "'shared_storage' parameter is required to update a shared storage.", [])
        else update_shared_storage env check_mode p
      | .present =>
        if !truthy p.name then
          (.failed "name parameter is required for a new shared storage.", [])
        else if !truthyN p.size then
          (.failed "size parameter is required for a new shared storage.", [])
        else create_shared_storage env check_mode p

/-! ## oneandone_ssh_key.py -/

/-- Parameters of `oneandone_ssh_key` (its `argument_spec`).  The module
declares no `mutually_exclusive` or `required_together` constraints. -/
structure SshKeyParams where
  auth_token : Option String := Option.none
  ssh_key_id : Option String := Option.none
  name : Option String := Option.none
  description : Option String := Option.none
  public_key : Option String := Option.none
  ssh_key : Option String := Option.none
  wait : Bool := true
  wait_timeout : Nat := 600
  wait_interval : Nat := 5
  state : ModuleState := .present
  deriving DecidableEq, Repr

/-- `create_ssh_key(module, oneandone_conn)`: in check mode the source exits
with the raw `name` parameter as `changed=` (`_check_mode(module, name)`),
otherwise it issues the create call, optionally waits and re-reads the key
with `oneandone_conn.get_ssh_key(ssh_key['id'])`, and returns
`changed = bool(ssh_key)`. -/
def create_ssh_key (env : Env) (check_mode : Bool) (p : SshKeyParams) :
    MRes (Bool × Option Resource) :=
  if check_mode then (.exited (valueOfOptStr p.name), [])
  else
    let tr := [SdkCall.createSshKey p.name p.description p.public_key]
    match env.createSshKeyR p.name p.description p.public_key with
    | .error e => (.failed e, tr)
    | .ok key =>
      if p.wait then
        match subscriptId key with
        | .error e => (.failed e, tr)
        | .ok kid =>
          match waitExcept (env.statusAt kid) p.wait_timeout p.wait_interval with
          | .error e => (.failed e, tr)
          | .ok _ =>
            let tr := tr ++ [SdkCall.getSshKeyById kid]
            let key2 := env.sshKeys (some kid)
            (.returned (key2.isSome, key2), tr)
      else (.returned (key.isSome, key), tr)

/-- `update_ssh_key(module, oneandone_conn)`: resolve the key with
`get_ssh_key(oneandone_conn, ssh_key_id, True)` where `ssh_key_id` is the
`ssh_key` parameter; when missing, exit `changed=False` in check mode and
otherwise fail with "SSH key ... not found."; when found, exit
`changed=True` in check mode and otherwise modify, optionally wait and
re-read, and return `changed = bool(ssh_key)`. -/
def update_ssh_key (env : Env) (check_mode : Bool) (p : SshKeyParams) :
    MRes (Bool × Option Resource) :=
  let tr := [SdkCall.getSshKey p.ssh_key true]
  match env.sshKeys p.ssh_key with
  | Option.none =>
    if check_mode then (.exited (.bool false), tr)
    else (.failed ("SSH key " ++ optStr p.ssh_key ++ " not found."), tr)
  | some k =>
    if check_mode then (.exited (.bool true), tr)
    else
      let tr := tr ++ [SdkCall.modifySshKey k.id p.name p.description]
      match env.modifySshKeyR k.id p.name p.description with
      | .error e => (.failed e, tr)
      | .ok key =>
        if p.wait then
          match subscriptId key with
          | .error e => (.failed e, tr)
          | .ok kid =>
            match waitExcept (env.statusAt kid) p.wait_timeout p.wait_interval with
            | .error e => (.failed e, tr)
            | .ok _ =>
              let tr := tr ++ [SdkCall.getSshKeyById kid]
              let key2 := env.sshKeys (some kid)
              (.returned (key2.isSome, key2), tr)
        else (.returned (key.isSome, key), tr)

/-- `delete_ssh_key(module, oneandone_conn)`: resolve the key with
`get_ssh_key(oneandone_conn, ssh_key_id, True)`; when missing, exit
`changed=False` in check mode and otherwise fail with
"SSH key ... not found." — no delete call is issued; when found, exit
`changed=True` in check mode and otherwise issue the delete call and return
`changed=True` with the `{id, name}` snapshot (a falsy delete result makes
the subscript raise `TypeError` → `fail_json`). -/
def delete_ssh_key (env : Env) (check_mode : Bool) (p : SshKeyParams) :
    MRes (Bool × Option Resource) :=
  let tr := [SdkCall.getSshKey p.ssh_key_id true]
  match env.sshKeys p.ssh_key_id with
  | Option.none =>
    if check_mode then (.exited (.bool false), tr)
    else (.failed ("SSH key " ++ optStr p.ssh_key_id ++ " not found."), tr)
  | some k =>
    if check_mode then (.exited (.bool true), tr)
    else
      let tr := tr ++ [SdkCall.deleteSshKey k.id]
      match env.deleteSshKeyR k.id with
      | .error e => (.failed e, tr)
      | .ok deleted =>
        match deleted with
        | Option.none => (.failed "TypeError: NoneType object is not subscriptable", tr)
        | some r => (.returned (true, some { id := r.id, name := r.name }), tr)

/-- `main()` of `oneandone_ssh_key.py`: the `auth_token` check, then
dispatch on `state`.  Both the `absent` and the `update` branch require a
truthy `ssh_key_id` parameter (the `update` branch then resolves by the
`ssh_key` parameter); the `present` branch requires nothing further. -/
def ssh_key_main (env : Env) (check_mode : Bool) (p : SshKeyParams) :
    MRes (Bool × Option Resource) :=
  if !truthy p.auth_token then (.failed "auth_token parameter is required.", [])
  else
    match p.state with
    | .absent =>
      if !truthy p.ssh_key_id then
        (.failed "'ssh_key_id' parameter is required to delete a SSH key.", [])
      else delete_ssh_key env check_mode p
    | .update =>
      if !truthy p.ssh_key_id then
        (.failed "'ssh_key_id' parameter is required to update a SSH key.", [])
      else update_ssh_key env check_mode p
    | .present => create_ssh_key env check_mode p

/-! ## Concrete provider environment and parameters used by the witnesses -/

/-- A block storage the test resolver knows under the name `b1` (and id). -/
def bsT : Resource := { id := "bs-1-id", name := "b1" }

/-- A block storage the test resolver knows under the name `x` (and id). -/
def xT : Resource := { id := "x-id", name := "x" }

/-- A server the test resolver knows under the id `s1`. -/
def srvT : Resource := { id := "srv-1", name := "server-one" }

/-- A shared storage the test resolver knows under the name `ss1` (and id). -/
def ssT : Resource := { id := "ss-1-id", name := "ss1" }

/-- A concrete provider used by the witnesses: it knows the resources above,
no SSH keys; every mutating call succeeds except block storage attach. -/
def envT : Env where
  blockStorages := fun i =>
    if i = some "b1" || i = some "bs-1-id" then some bsT
    else if i = some "x" || i = some "x-id" then some xT
    else Option.none
  servers := fun i => if i = some "s1" then some srvT else Option.none
  sharedStorages := fun i =>
    if i = some "ss1" || i = some "ss-1-id" then some ssT else Option.none
  sharedStorageServers := fun _ _ => Option.none
  sshKeys := fun _ => Option.none
  statusAt := fun _ _ => .active
  createBlockStorageR := fun n _ _ _ _ => .ok (some { id := "new-bs", name := optStr n })
  modifyBlockStorageR := fun i n _ => .ok (some { id := i, name := optStr n })
  attachBlockStorageR := fun _ _ => .error "ATTACH_FAILED"
  detachBlockStorageR := fun i => .ok (some { id := i, name := "detached" })
  deleteBlockStorageR := fun _ => .ok (some { id := "del-bs", name := "del-bs" })
  createSharedStorageR := fun n _ _ _ => .ok (some { id := "new-ss", name := optStr n })
  modifySharedStorageR := fun i n _ _ => .ok (some { id := i, name := optStr n })
  changePasswordR := fun _ => .ok (some ssT)
  attachServerSharedStorageR := fun i _ => .ok (some { id := i, name := "attached" })
  detachServerSharedStorageR := fun i _ => .ok (some { id := i, name := "detached" })
  deleteSharedStorageR := fun _ => .ok (some ssT)
  createSshKeyR := fun n _ _ => .ok (some { id := "new-key", name := optStr n })
  modifySshKeyR := fun i n _ => .ok (some { id := i, name := optStr n })
  deleteSshKeyR := fun i => .ok (some { id := i, name := "deleted" })

/-! ## Trace structure lemmas -/

theorem mutCalls_append (tr s : List SdkCall) :
    mutCalls (tr ++ s) = mutCalls tr ++ mutCalls s := by
  simp [mutCalls]

theorem mutCalls_nil : mutCalls [] = [] := rfl

/-- Every stage of `update_block_storage` only ever appends to the trace. -/
theorem upd_bs_detach_ext (env : Env) (c : Bool) (p : BlockStorageParams)
    (tr : List SdkCall) (bs : Option Resource) (ch : Bool) :
    ∃ s, (upd_bs_detach env c p tr bs ch).2 = tr ++ s := by
  unfold upd_bs_detach
  split
  · split
    · exact ⟨[], (List.append_nil tr).symm⟩
    · split
      · exact ⟨[], (List.append_nil tr).symm⟩
      · split
        · exact ⟨_, rfl⟩
        · exact ⟨_, List.append_assoc _ _ _⟩
  · exact ⟨[], (List.append_nil tr).symm⟩

theorem upd_bs_attach_ext (env : Env) (c : Bool) (p : BlockStorageParams)
    (tr : List SdkCall) (bs : Option Resource) (ch : Bool) :
    ∃ s, (upd_bs_attach env c p tr bs ch).2 = tr ++ s := by
  unfold upd_bs_attach
  split
  · split
    · exact ⟨_, rfl⟩
    · split
      · exact ⟨[], (List.append_nil tr).symm⟩
      · split
        · exact ⟨_, rfl⟩
        · obtain ⟨s, hs⟩ := upd_bs_detach_ext env c p
            (tr ++ [SdkCall.attachBlockStorage _ p.server_id]) _ true
          exact ⟨_, by rw [hs, List.append_assoc]⟩
  · exact upd_bs_detach_ext env c p tr bs ch

theorem upd_bs_name_desc_ext (env : Env) (c : Bool) (p : BlockStorageParams)
    (tr : List SdkCall) (bs : Option Resource) :
    ∃ s, (upd_bs_name_desc env c p tr bs).2 = tr ++ s := by
  unfold upd_bs_name_desc
  split
  · split
    · exact ⟨[], (List.append_nil tr).symm⟩
    · split
      · exact ⟨[], (List.append_nil tr).symm⟩
      · split
        · exact ⟨_, rfl⟩
        · obtain ⟨s, hs⟩ := upd_bs_attach_ext env c p
            (tr ++ [SdkCall.modifyBlockStorage _ p.name p.description]) _ true
          exact ⟨_, by rw [hs, List.append_assoc]⟩
  · exact upd_bs_attach_ext env c p tr bs false

/-- Every stage of `update_shared_storage` only ever appends to the trace. -/
theorem upd_ss_detach_ext (env : Env) (c : Bool) (p : SharedStorageParams)
    (tr : List SdkCall) (ss : Option Resource) (ch : Bool) :
    ∃ s, (upd_ss_detach env c p tr ss ch).2 = tr ++ s := by
  unfold upd_ss_detach
  split
  · split
    · exact ⟨_, rfl⟩
    · split
      · exact ⟨[], (List.append_nil tr).symm⟩
      · exact ⟨[], (List.append_nil tr).symm⟩
  · exact ⟨[], (List.append_nil tr).symm⟩

theorem upd_ss_attach_ext (env : Env) (c : Bool) (p : SharedStorageParams)
    (tr : List SdkCall) (ss : Option Resource) (ch : Bool) :
    ∃ s, (upd_ss_attach env c p tr ss ch).2 = tr ++ s := by
  unfold upd_ss_attach
  split
  · split
    · exact ⟨[], (List.append_nil tr).symm⟩
    · split
      · exact ⟨[], (List.append_nil tr).symm⟩
      · split
        · exact ⟨_, rfl⟩
        · obtain ⟨s, hs⟩ := upd_ss_detach_ext env c p
            (tr ++ [SdkCall.attachServerSharedStorage _ p.servers]) _ true
          exact ⟨_, by rw [hs, List.append_assoc]⟩
  · exact upd_ss_detach_ext env c p tr ss ch

theorem upd_ss_password_ext (env : Env) (c : Bool) (p : SharedStorageParams)
    (tr : List SdkCall) (ss : Option Resource) (ch : Bool) :
    ∃ s, (upd_ss_password env c p tr ss ch).2 = tr ++ s := by
  unfold upd_ss_password
  split
  · split
    · exact upd_ss_attach_ext env c p tr ss ch
    · split
      · exact ⟨[], (List.append_nil tr).symm⟩
      · split
        · exact ⟨_, rfl⟩
        · obtain ⟨s, hs⟩ := upd_ss_attach_ext env c p
            (tr ++ [SdkCall.changePassword _]) _ true
          exact ⟨_, by rw [hs, List.append_assoc]⟩
  · exact upd_ss_attach_ext env c p tr ss ch

theorem upd_ss_name_desc_size_ext (env : Env) (c : Bool) (p : SharedStorageParams)
    (tr : List SdkCall) (ss : Option Resource) :
    ∃ s, (upd_ss_name_desc_size env c p tr ss).2 = tr ++ s := by
  unfold upd_ss_name_desc_size
  split
  · split
    · exact ⟨[], (List.append_nil tr).symm⟩
    · split
      · exact ⟨[], (List.append_nil tr).symm⟩
      · split
        · exact ⟨_, rfl⟩
        · obtain ⟨s, hs⟩ := upd_ss_password_ext env c p
            (tr ++ [SdkCall.modifySharedStorage _ p.name p.description p.size]) _ true
          exact ⟨_, by rw [hs, List.append_assoc]⟩
  · exact upd_ss_password_ext env c p tr ss false

/-! ## Check-mode (dry-run) safety lemmas -/

theorem mutCalls_append_read (tr : List SdkCall) (c : SdkCall)
    (h : c.isMutating = false) : mutCalls (tr ++ [c]) = mutCalls tr := by
  simp [mutCalls_append, mutCalls, List.filter, h]

theorem upd_bs_detach_check (env : Env) (p : BlockStorageParams)
    (tr : List SdkCall) (bs : Option Resource) (ch : Bool) :
    (upd_bs_detach env true p tr bs ch).2 = tr := by
  unfold upd_bs_detach
  split <;> simp

theorem upd_bs_attach_check (env : Env) (p : BlockStorageParams)
    (tr : List SdkCall) (bs : Option Resource) (ch : Bool) :
    mutCalls (upd_bs_attach env true p tr bs ch).2 = mutCalls tr := by
  unfold upd_bs_attach
  split
  · exact mutCalls_append_read _ _ rfl
  · rw [upd_bs_detach_check]

theorem upd_bs_name_desc_check (env : Env) (p : BlockStorageParams)
    (tr : List SdkCall) (bs : Option Resource) :
    mutCalls (upd_bs_name_desc env true p tr bs).2 = mutCalls tr := by
  unfold upd_bs_name_desc
  split
  · simp
  · rw [upd_bs_attach_check]

theorem update_block_storage_check (env : Env) (p : BlockStorageParams) :
    mutCalls (update_block_storage env true p).2 = [] := by
  unfold update_block_storage
  dsimp only
  split
  · rfl
  · rw [upd_bs_name_desc_check]
    rfl

theorem block_storage_main_check (env : Env) (p : BlockStorageParams) :
    mutCalls (block_storage_main env true p).2 = [] := by
  unfold block_storage_main
  split
  · rfl
  · split
    · rfl
    · split
      · split
        · rfl
        · unfold remove_block_storage
          dsimp only
          split
          · split <;> rfl
          · simp_all
      · split
        · rfl
        · exact update_block_storage_check env p
      · split
        · rfl
        · split
          · rfl
          · rfl

theorem upd_ss_detach_check (env : Env) (p : SharedStorageParams)
    (tr : List SdkCall) (ss : Option Resource) (ch : Bool) :
    mutCalls (upd_ss_detach env true p tr ss ch).2 = mutCalls tr := by
  unfold upd_ss_detach
  split
  · exact mutCalls_append_read _ _ rfl
  · rfl

theorem upd_ss_attach_check (env : Env) (p : SharedStorageParams)
    (tr : List SdkCall) (ss : Option Resource) (ch : Bool) :
    mutCalls (upd_ss_attach env true p tr ss ch).2 = mutCalls tr := by
  unfold upd_ss_attach
  split
  · simp
  · rw [upd_ss_detach_check]

theorem upd_ss_password_check (env : Env) (p : SharedStorageParams)
    (tr : List SdkCall) (ss : Option Resource) (ch : Bool) :
    mutCalls (upd_ss_password env true p tr ss ch).2 = mutCalls tr := by
  unfold upd_ss_password
  split
  · split
    · rw [upd_ss_attach_check]
    · simp
  · rw [upd_ss_attach_check]

theorem upd_ss_name_desc_size_check (env : Env) (p : SharedStorageParams)
    (tr : List SdkCall) (ss : Option Resource) :
    mutCalls (upd_ss_name_desc_size env true p tr ss).2 = mutCalls tr := by
  unfold upd_ss_name_desc_size
  split
  · simp
  · rw [upd_ss_password_check]

theorem update_shared_storage_check (env : Env) (p : SharedStorageParams) :
    mutCalls (update_shared_storage env true p).2 = [] := by
  unfold update_shared_storage
  dsimp only
  split
  · rfl
  · rw [upd_ss_name_desc_size_check]
    rfl

theorem shared_storage_main_check (env : Env) (p : SharedStorageParams) :
    mutCalls (shared_storage_main env true p).2 = [] := by
  unfold shared_storage_main
  split
  · rfl
  · split
    · rfl
    · split
      · split
        · rfl
        · unfold remove_shared_storage
          dsimp only
          split
          · split <;> rfl
          · simp_all
      · split
        · rfl
        · exact update_shared_storage_check env p
      · split
        · rfl
        · split
          · rfl
          · rfl

theorem ssh_key_main_check (env : Env) (p : SshKeyParams) :
    mutCalls (ssh_key_main env true p).2 = [] := by
  unfold ssh_key_main
  split
  · rfl
  · split
    · split
      · rfl
      · unfold delete_ssh_key
        split <;> rfl
    · split
      · rfl
      · unfold update_ssh_key
        split <;> rfl
    · rfl

/-! ## Completion waiter lemmas -/

/-- Loop invariant of the waiter: entered at `elapsed = polls * interval`
with enough fuel, it completes only at a poll whose status is no longer
"creating", having seen "creating" at every earlier poll, and it times out
only once the elapsed time exceeds the timeout, all polls having seen
"creating". -/
theorem waitLoop_inv (statusAt : Nat → ResStatus) (timeout interval : Nat)
    (hi : 1 ≤ interval) :
    ∀ fuel elapsed polls, timeout + 1 ≤ fuel + elapsed → elapsed = polls * interval →
      ((∀ t q, waitLoop statusAt timeout interval fuel elapsed polls = .completed t q →
          statusAt t ≠ .creating ∧ t = q * interval ∧ polls < q ∧
          (q - 1) * interval ≤ timeout ∧
          ∀ j, polls < j → j < q → statusAt (j * interval) = .creating) ∧
       (∀ q, waitLoop statusAt timeout interval fuel elapsed polls = .timedOut q →
          timeout < q * interval ∧ polls ≤ q ∧
          ∀ j, polls < j → j ≤ q → statusAt (j * interval) = .creating)) := by
  intro fuel
  induction fuel with
  | zero =>
    intro elapsed polls hfe hep
    constructor
    · intro t q h
      simp [waitLoop] at h
    · intro q h
      simp [waitLoop] at h
      subst h
      refine ⟨?_, Nat.le_refl _, ?_⟩
      · rw [← hep]; omega
      · intro j hj1 hj2; omega
  | succ fuel ih =>
    intro elapsed polls hfe hep
    by_cases hto : timeout < elapsed
    · constructor
      · intro t q h
        simp only [waitLoop] at h
        rw [if_pos hto] at h
        exact WaitOutcome.noConfusion h
      · intro q h
        simp only [waitLoop] at h
        rw [if_pos hto] at h
        injection h with h
        subst h
        refine ⟨by rw [← hep]; omega, Nat.le_refl _, ?_⟩
        intro j hj1 hj2; omega
    · by_cases hst : statusAt (elapsed + interval) = .creating
      · have hrec : waitLoop statusAt timeout interval (fuel + 1) elapsed polls
            = waitLoop statusAt timeout interval fuel (elapsed + interval) (polls + 1) := by
          simp only [waitLoop]
          rw [if_neg hto, if_neg (not_not_intro hst)]
        have hep2 : elapsed + interval = (polls + 1) * interval := by
          rw [hep, Nat.succ_mul]
        have hfe2 : timeout + 1 ≤ fuel + (elapsed + interval) := by omega
        obtain ⟨ihc, iht⟩ := ih (elapsed + interval) (polls + 1) hfe2 hep2
        constructor
        · intro t q h
          rw [hrec] at h
          obtain ⟨h1, h2, h3, h4, h5⟩ := ihc t q h
          refine ⟨h1, h2, by omega, h4, ?_⟩
          intro j hj1 hj2
          by_cases hj : j = polls + 1
          · subst hj; rw [← hep2]; exact hst
          · exact h5 j (by omega) hj2
        · intro q h
          rw [hrec] at h
          obtain ⟨h1, h2, h3⟩ := iht q h
          refine ⟨h1, by omega, ?_⟩
          intro j hj1 hj2
          by_cases hj : j = polls + 1
          · subst hj; rw [← hep2]; exact hst
          · exact h3 j (by omega) hj2
      · have hdone : waitLoop statusAt timeout interval (fuel + 1) elapsed polls
            = .completed (elapsed + interval) (polls + 1) := by
          simp only [waitLoop]
          rw [if_neg hto, if_pos hst]
        constructor
        · intro t q h
          rw [hdone] at h
          injection h with h1 h2
          subst h1; subst h2
          refine ⟨hst, by rw [hep, Nat.succ_mul], Nat.lt_succ_self _, ?_, ?_⟩
          · simpa [← hep] using Nat.le_of_not_lt hto
          · intro j hj1 hj2; omega
        · intro q h
          rw [hdone] at h
          exact WaitOutcome.noConfusion h

/-- With `timeout < interval` and the resource still provisioning at the
first poll, the waiter performs exactly one poll and times out. -/
theorem wait_one_poll (statusAt : Nat → ResStatus) (timeout interval : Nat)
    (hti : timeout < interval) (hcr : statusAt interval = .creating) :
    wait_for_resource_creation_completion statusAt timeout interval = .timedOut 1 := by
  unfold wait_for_resource_creation_completion
  have h1 : waitLoop statusAt timeout interval (timeout + 2) 0 0
      = waitLoop statusAt timeout interval (timeout + 1) (0 + interval) 1 := by
    simp only [waitLoop]
    rw [if_neg (by omega), if_neg (by simpa using hcr)]
  rw [h1]
  simp only [waitLoop]
  rw [if_pos (by omega)]

/-! ## Changed-implies-mutating-call lemmas -/

theorem mutCalls_append_mut (tr : List SdkCall) (c : SdkCall)
    (h : c.isMutating = true) : mutCalls (tr ++ [c]) = mutCalls tr ++ [c] := by
  simp [mutCalls_append, mutCalls, List.filter, h]

theorem mut_mono (tr s : List SdkCall) (h : mutCalls tr ≠ []) :
    mutCalls (tr ++ s) ≠ [] := by
  rw [mutCalls_append]
  intro hc
  exact h (List.append_eq_nil.mp hc).1

theorem mut_snoc_ne_nil (tr : List SdkCall) (c : SdkCall)
    (h : c.isMutating = true) : mutCalls (tr ++ [c]) ≠ [] := by
  rw [mutCalls_append_mut _ _ h]
  simp

theorem not_false_eq_true_bool : ¬((false : Bool) = true) := by simp

theorem upd_bs_detach_changed (env : Env) (p : BlockStorageParams)
    (tr : List SdkCall) (bs : Option Resource) (r : Option Resource)
    (h : (upd_bs_detach env false p tr bs false).1 = .returned (true, r)) :
    mutCalls (upd_bs_detach env false p tr bs false).2 ≠ [] := by
  unfold upd_bs_detach at h ⊢
  by_cases hd : p.detach
  · rw [if_pos hd, if_neg not_false_eq_true_bool] at h ⊢
    rcases hsub : subscriptId bs with e | bsid
    · simp only [hsub] at h
      simp at h
    · simp only [hsub] at h ⊢
      rcases henv : env.detachBlockStorageR bsid with e | bs2
      · simp only [henv] at h
        simp at h
      · simp only [henv] at h ⊢
        exact mut_mono _ _ (mut_snoc_ne_nil _ _ rfl)
  · rw [if_neg hd] at h
    simp at h

theorem upd_bs_attach_changed (env : Env) (p : BlockStorageParams)
    (tr : List SdkCall) (bs : Option Resource) (r : Option Resource)
    (h : (upd_bs_attach env false p tr bs false).1 = .returned (true, r)) :
    mutCalls (upd_bs_attach env false p tr bs false).2 ≠ [] := by
  unfold upd_bs_attach at h ⊢
  by_cases ha : p.attach
  · rw [if_pos ha, if_neg not_false_eq_true_bool] at h ⊢
    rcases hsub : subscriptId bs with e | bsid
    · simp only [hsub] at h
      simp at h
    · simp only [hsub] at h ⊢
      rcases henv : env.attachBlockStorageR bsid p.server_id with e | bs2
      · simp only [henv] at h
        simp at h
      · simp only [henv] at h ⊢
        obtain ⟨s, hs⟩ := upd_bs_detach_ext env false p
          (tr ++ [SdkCall.attachBlockStorage bsid p.server_id]) bs2 true
        rw [hs]
        exact mut_mono _ _ (mut_snoc_ne_nil _ _ rfl)
  · rw [if_neg ha] at h ⊢
    exact upd_bs_detach_changed env p tr bs r h

theorem upd_bs_name_desc_changed (env : Env) (p : BlockStorageParams)
    (tr : List SdkCall) (bs : Option Resource) (r : Option Resource)
    (h : (upd_bs_name_desc env false p tr bs).1 = .returned (true, r)) :
    mutCalls (upd_bs_name_desc env false p tr bs).2 ≠ [] := by
  unfold upd_bs_name_desc at h ⊢
  by_cases hn : (truthy p.name || truthy p.description) = true
  · rw [if_pos hn, if_neg not_false_eq_true_bool] at h ⊢
    rcases hsub : subscriptId bs with e | bsid
    · simp only [hsub] at h
      simp at h
    · simp only [hsub] at h ⊢
      rcases henv : env.modifyBlockStorageR bsid p.name p.description with e | bs2
      · simp only [henv] at h
        simp at h
      · simp only [henv] at h ⊢
        obtain ⟨s, hs⟩ := upd_bs_attach_ext env false p
          (tr ++ [SdkCall.modifyBlockStorage bsid p.name p.description]) bs2 true
        rw [hs]
        exact mut_mono _ _ (mut_snoc_ne_nil _ _ rfl)
  · rw [if_neg hn] at h ⊢
    exact upd_bs_attach_changed env p tr bs r h

theorem update_block_storage_changed (env : Env) (p : BlockStorageParams)
    (r : Option Resource)
    (h : (update_block_storage env false p).1 = .returned (true, r)) :
    mutCalls (update_block_storage env false p).2 ≠ [] := by
  unfold update_block_storage at h ⊢
  dsimp only at h ⊢
  split at h
  · simp_all
  · exact upd_bs_name_desc_changed env p _ _ r h

theorem upd_ss_detach_changed (env : Env) (p : SharedStorageParams)
    (tr : List SdkCall) (ss : Option Resource) (r : Option Resource)
    (h : (upd_ss_detach env false p tr ss false).1 = .returned (true, r)) :
    mutCalls (upd_ss_detach env false p tr ss false).2 ≠ [] := by
  unfold upd_ss_detach at h
  by_cases hd : p.detach
  · rw [if_pos hd, if_neg not_false_eq_true_bool] at h
    rcases hsub : subscriptId ss with e | ssid
    · simp only [hsub] at h
      simp at h
    · simp only [hsub] at h
      simp at h
  · rw [if_neg hd] at h
    simp at h

theorem upd_ss_attach_changed (env : Env) (p : SharedStorageParams)
    (tr : List SdkCall) (ss : Option Resource) (r : Option Resource)
    (h : (upd_ss_attach env false p tr ss false).1 = .returned (true, r)) :
    mutCalls (upd_ss_attach env false p tr ss false).2 ≠ [] := by
  unfold upd_ss_attach at h ⊢
  by_cases ha : p.attach
  · rw [if_pos ha, if_neg not_false_eq_true_bool] at h ⊢
    rcases hsub : subscriptId ss with e | ssid
    · simp only [hsub] at h
      simp at h
    · simp only [hsub] at h ⊢
      rcases henv : env.attachServerSharedStorageR ssid p.servers with e | ss2
      · simp only [henv] at h
        simp at h
      · simp only [henv] at h ⊢
        obtain ⟨s, hs⟩ := upd_ss_detach_ext env false p
          (tr ++ [SdkCall.attachServerSharedStorage ssid p.servers]) ss2 true
        rw [hs]
        exact mut_mono _ _ (mut_snoc_ne_nil _ _ rfl)
  · rw [if_neg ha] at h ⊢
    exact upd_ss_detach_changed env p tr ss r h

theorem upd_ss_password_changed (env : Env) (p : SharedStorageParams)
    (tr : List SdkCall) (ss : Option Resource) (r : Option Resource)
    (h : (upd_ss_password env false p tr ss false).1 = .returned (true, r)) :
    mutCalls (upd_ss_password env false p tr ss false).2 ≠ [] := by
  unfold upd_ss_password at h ⊢
  rcases hpw : p.password with _ | pw
  · simp only [hpw] at h ⊢
    exact upd_ss_attach_changed env p tr ss r h
  · simp only [hpw] at h ⊢
    by_cases hemp : pw.isEmpty
    · rw [if_pos hemp] at h ⊢
      exact upd_ss_attach_changed env p tr ss r h
    · rw [if_neg hemp, if_neg not_false_eq_true_bool] at h ⊢
      rcases henv : env.changePasswordR pw with e | ss2
      · simp only [henv] at h
        simp at h
      · simp only [henv] at h ⊢
        obtain ⟨s, hs⟩ := upd_ss_attach_ext env false p
          (tr ++ [SdkCall.changePassword pw]) ss2 true
        rw [hs]
        exact mut_mono _ _ (mut_snoc_ne_nil _ _ rfl)

theorem upd_ss_name_desc_size_changed (env : Env) (p : SharedStorageParams)
    (tr : List SdkCall) (ss : Option Resource) (r : Option Resource)
    (h : (upd_ss_name_desc_size env false p tr ss).1 = .returned (true, r)) :
    mutCalls (upd_ss_name_desc_size env false p tr ss).2 ≠ [] := by
  unfold upd_ss_name_desc_size at h ⊢
  by_cases hn : (truthy p.name || truthy p.description || truthyN p.size) = true
  · rw [if_pos hn, if_neg not_false_eq_true_bool] at h ⊢
    rcases hsub : subscriptId ss with e | ssid
    · simp only [hsub] at h
      simp at h
    · simp only [hsub] at h ⊢
      rcases henv : env.modifySharedStorageR ssid p.name p.description p.size with e | ss2
      · simp only [henv] at h
        simp at h
      · simp only [henv] at h ⊢
        obtain ⟨s, hs⟩ := upd_ss_password_ext env false p
          (tr ++ [SdkCall.modifySharedStorage ssid p.name p.description p.size]) ss2 true
        rw [hs]
        exact mut_mono _ _ (mut_snoc_ne_nil _ _ rfl)
  · rw [if_neg hn] at h ⊢
    exact upd_ss_password_changed env p tr ss r h

theorem update_shared_storage_changed (env : Env) (p : SharedStorageParams)
    (r : Option Resource)
    (h : (update_shared_storage env false p).1 = .returned (true, r)) :
    mutCalls (update_shared_storage env false p).2 ≠ [] := by
  unfold update_shared_storage at h ⊢
  dsimp only at h ⊢
  split at h
  · simp_all
  · exact upd_ss_name_desc_size_changed env p _ _ r h

theorem block_storage_main_changed (env : Env) (p : BlockStorageParams)
    (r : Option Resource) (hst : p.state = .update)
    (h : (block_storage_main env false p).1 = .returned (true, r)) :
    mutCalls (block_storage_main env false p).2 ≠ [] := by
  unfold block_storage_main at h ⊢
  rcases hv : validate_block_args p with _ | msg
  · simp only [hv] at h ⊢
    by_cases hau : (!truthy p.auth_token) = true
    · rw [if_pos hau] at h
      simp at h
    · rw [if_neg hau] at h ⊢
      simp only [hst] at h ⊢
      by_cases hbs : (!truthy p.block_storage) = true
      · rw [if_pos hbs] at h
        simp at h
      · rw [if_neg hbs] at h ⊢
        exact update_block_storage_changed env p r h
  · simp only [hv] at h
    simp at h

theorem shared_storage_main_changed (env : Env) (p : SharedStorageParams)
    (r : Option Resource) (hst : p.state = .update)
    (h : (shared_storage_main env false p).1 = .returned (true, r)) :
    mutCalls (shared_storage_main env false p).2 ≠ [] := by
  unfold shared_storage_main at h ⊢
  rcases hv : validate_shared_args p with _ | msg
  · simp only [hv] at h ⊢
    by_cases hau : (!truthy p.auth_token) = true
    · rw [if_pos hau] at h
      simp at h
    · rw [if_neg hau] at h ⊢
      simp only [hst] at h ⊢
      by_cases hss : (!truthy p.shared_storage) = true
      · rw [if_pos hss] at h
        simp at h
      · rw [if_neg hss] at h ⊢
        exact update_shared_storage_changed env p r h
  · simp only [hv] at h
    simp at h

theorem update_block_storage_noop (env : Env) (p : BlockStorageParams)
    (bs : Resource) (hn : truthy p.name = false)
    (hd : truthy p.description = false) (ha : p.attach = false)
    (hdet : p.detach = false)
    (hbs : env.blockStorages p.block_storage = some bs) :
    update_block_storage env false p
      = (.returned (false, some bs), [SdkCall.getBlockStorage p.block_storage true]) := by
  unfold update_block_storage upd_bs_name_desc upd_bs_attach upd_bs_detach
  simp [hn, hd, ha, hdet, hbs]

theorem update_shared_storage_noop (env : Env) (p : SharedStorageParams)
    (ss : Resource) (hn : truthy p.name = false)
    (hd : truthy p.description = false) (hsz : truthyN p.size = false)
    (hpw : truthy p.password = false) (ha : p.attach = false)
    (hdet : p.detach = false)
    (hss : env.sharedStorages p.shared_storage = some ss) :
    update_shared_storage env false p
      = (.returned (false, some ss), [SdkCall.getSharedStorage p.shared_storage true]) := by
  unfold update_shared_storage upd_ss_name_desc_size upd_ss_password upd_ss_attach upd_ss_detach
  rcases hp : p.password with _ | pw
  · simp [hn, hd, hsz, ha, hdet, hss]
  · have hemp : pw.isEmpty = true := by
      rw [hp] at hpw
      simpa [truthy] using hpw
    simp [hn, hd, hsz, ha, hdet, hss, hemp]

theorem block_storage_main_noop (env : Env) (p : BlockStorageParams)
    (bs : Resource) (hst : p.state = .update)
    (hau : truthy p.auth_token = true) (hbsid : truthy p.block_storage = true)
    (hn : truthy p.name = false) (hd : truthy p.description = false)
    (ha : p.attach = false) (hdet : p.detach = false)
    (hbs : env.blockStorages p.block_storage = some bs) :
    block_storage_main env false p
      = (.returned (false, some bs), [SdkCall.getBlockStorage p.block_storage true]) := by
  unfold block_storage_main
  have hv : validate_block_args p = Option.none := by
    unfold validate_block_args
    simp [ha]
  simp only [hv, hst, hau, hbsid, Bool.not_true, Bool.false_eq_true, if_false]
  exact update_block_storage_noop env p bs hn hd ha hdet hbs

theorem shared_storage_main_noop (env : Env) (p : SharedStorageParams)
    (ss : Resource) (hst : p.state = .update)
    (hau : truthy p.auth_token = true) (hssid : truthy p.shared_storage = true)
    (hn : truthy p.name = false) (hd : truthy p.description = false)
    (hsz : truthyN p.size = false) (hpw : truthy p.password = false)
    (ha : p.attach = false) (hdet : p.detach = false)
    (hss : env.sharedStorages p.shared_storage = some ss) :
    shared_storage_main env false p
      = (.returned (false, some ss), [SdkCall.getSharedStorage p.shared_storage true]) := by
  unfold shared_storage_main
  have hv : validate_shared_args p = Option.none := by
    unfold validate_shared_args
    simp [ha, hdet]
  simp only [hv, hst, hau, hssid, Bool.not_true, Bool.false_eq_true, if_false]
  exact update_shared_storage_noop env p ss hn hd hsz hpw ha hdet hss

/-! ## Shared-storage detach arity bug lemmas -/

/-- Whether a call is the shared-storage detach SDK call. -/
def isSharedDetachCall : SdkCall → Bool
  | .detachServerSharedStorage _ _ => true
  | _ => false

/-- Outside check mode, the detach step of `update_shared_storage` always
fails (the call site passes three arguments to the four-parameter helper)
and issues no SDK call at all. -/
theorem upd_ss_detach_detfail (env : Env) (p : SharedStorageParams)
    (tr : List SdkCall) (ss : Option Resource) (ch : Bool)
    (hdet : p.detach = true) :
    (∃ msg, (upd_ss_detach env false p tr ss ch).1 = Outcome.failed msg) ∧
    (upd_ss_detach env false p tr ss ch).2 = tr := by
  unfold upd_ss_detach
  rw [if_pos hdet, if_neg not_false_eq_true_bool]
  rcases hsub : subscriptId ss with e | ssid
  · exact ⟨⟨e, rfl⟩, rfl⟩
  · exact ⟨⟨_, rfl⟩, rfl⟩

/-- Outside check mode, with `detach` requested and `attach` not requested,
the attach/password tail of `update_shared_storage` always fails, and the
calls it adds to the trace contain no shared-storage detach call. -/
theorem upd_ss_password_detfail (env : Env) (p : SharedStorageParams)
    (tr : List SdkCall) (ss : Option Resource) (ch : Bool)
    (hdet : p.detach = true) (hatt : p.attach = false) :
    (∃ msg, (upd_ss_password env false p tr ss ch).1 = Outcome.failed msg) ∧
    ∃ s, (upd_ss_password env false p tr ss ch).2 = tr ++ s ∧
      s.filter isSharedDetachCall = [] := by
  have hskip : ∀ tr2 ss2 ch2, upd_ss_attach env false p tr2 ss2 ch2
      = upd_ss_detach env false p tr2 ss2 ch2 := by
    intro tr2 ss2 ch2
    unfold upd_ss_attach
    rw [if_neg (by simp [hatt])]
  unfold upd_ss_password
  rcases hpw : p.password with _ | pw
  · rw [hskip]
    obtain ⟨hf, htr⟩ := upd_ss_detach_detfail env p tr ss ch hdet
    exact ⟨hf, [], by rw [htr, List.append_nil], rfl⟩
  · dsimp only
    by_cases hemp : pw.isEmpty
    · rw [if_pos hemp, hskip]
      obtain ⟨hf, htr⟩ := upd_ss_detach_detfail env p tr ss ch hdet
      exact ⟨hf, [], by rw [htr, List.append_nil], rfl⟩
    · rw [if_neg hemp]
      rcases henv : env.changePasswordR pw with e | ss2
      · exact ⟨⟨e, rfl⟩, [SdkCall.changePassword pw], rfl, rfl⟩
      · dsimp only
        rw [hskip]
        obtain ⟨hf, htr⟩ := upd_ss_detach_detfail env p
          (tr ++ [SdkCall.changePassword pw]) ss2 true hdet
        exact ⟨hf, [SdkCall.changePassword pw], htr, rfl⟩

/-- Outside check mode, with `detach` requested, `attach` not requested and
the storage resolved, `update_shared_storage` always fails and its trace
contains no shared-storage detach call. -/
theorem update_shared_storage_detfail (env : Env) (p : SharedStorageParams)
    (ss : Resource) (hdet : p.detach = true) (hatt : p.attach = false)
    (hfound : env.sharedStorages p.shared_storage = some ss) :
    (∃ msg, (update_shared_storage env false p).1 = Outcome.failed msg) ∧
    (update_shared_storage env false p).2.filter isSharedDetachCall = [] := by
  unfold update_shared_storage upd_ss_name_desc_size
  dsimp only
  rw [hfound]
  simp only [Bool.false_and, Bool.false_eq_true, if_false]
  by_cases hn : (truthy p.name || truthy p.description || truthyN p.size) = true
  · rw [if_pos hn]
    simp only [subscriptId]
    rcases henv : env.modifySharedStorageR ss.id p.name p.description p.size with e | ss2
    · exact ⟨⟨e, rfl⟩, rfl⟩
    · obtain ⟨hf, s, hs, hfil⟩ := upd_ss_password_detfail env p
        ([SdkCall.getSharedStorage p.shared_storage true]
          ++ [SdkCall.modifySharedStorage ss.id p.name p.description p.size]) ss2 true hdet hatt
      refine ⟨hf, ?_⟩
      rw [hs, List.filter_append, List.filter_append, hfil]
      rfl
  · rw [if_neg hn]
    obtain ⟨hf, s, hs, hfil⟩ := upd_ss_password_detfail env p
      [SdkCall.getSharedStorage p.shared_storage true] (some ss) false hdet hatt
    refine ⟨hf, ?_⟩
    rw [hs, List.filter_append, hfil]
    rfl

theorem shared_storage_main_detfail (env : Env) (p : SharedStorageParams)
    (ss : Resource) (hdet : p.detach = true) (hst : p.state = .update)
    (hfound : env.sharedStorages p.shared_storage = some ss) :
    (∃ msg, (shared_storage_main env false p).1 = Outcome.failed msg) ∧
    (shared_storage_main env false p).2.filter isSharedDetachCall = [] := by
  unfold shared_storage_main
  rcases hv : validate_shared_args p with _ | msg
  · have hatt : p.attach = false := by
      cases hca : p.attach
      · rfl
      · exfalso
        unfold validate_shared_args at hv
        rw [hca, hdet] at hv
        simp at hv
    simp only [hv]
    by_cases hau : (!truthy p.auth_token) = true
    · rw [if_pos hau]
      exact ⟨⟨_, rfl⟩, rfl⟩
    · rw [if_neg hau]
      simp only [hst]
      by_cases hss : (!truthy p.shared_storage) = true
      · rw [if_pos hss]
        exact ⟨⟨_, rfl⟩, rfl⟩
      · rw [if_neg hss]
        exact update_shared_storage_detfail env p ss hdet hatt hfound
  · simp only [hv]
    exact ⟨⟨msg, rfl⟩, rfl⟩

/-! ## Present-state (create) path lemmas -/

/-- Outside check mode, a valid `state=present` block storage invocation
always issues the create call, whatever the provider holds — the present
path never consults the resolver. -/
theorem block_present_creates (env : Env) (p : BlockStorageParams)
    (hst : p.state = .present) (hau : truthy p.auth_token = true)
    (hn : truthy p.name = true) (hsz : truthyN p.size = true)
    (hatt : p.attach = false) :
    SdkCall.createBlockStorage p.name p.description p.size p.datacenter_id p.server_id
      ∈ (block_storage_main env false p).2 := by
  unfold block_storage_main create_block_storage
  have hv : validate_block_args p = Option.none := by
    unfold validate_block_args
    simp [hatt]
  simp only [hv, hst, hau, hsz, hn, Bool.not_true, Bool.false_eq_true, if_false]
  split
  · simp
  · split
    · split
      · simp
      · split
        · simp
        · simp
    · simp

/-- Outside check mode, with the create call succeeding and `wait=false`,
a valid `state=present` block storage invocation returns `changed=true`
with the created resource, its trace being exactly the one create call. -/
theorem block_present_result (env : Env) (p : BlockStorageParams)
    (r : Resource) (hst : p.state = .present) (hau : truthy p.auth_token = true)
    (hn : truthy p.name = true) (hsz : truthyN p.size = true)
    (hatt : p.attach = false) (hw : p.wait = false)
    (hcr : env.createBlockStorageR p.name p.description p.size p.datacenter_id
      p.server_id = .ok (some r)) :
    block_storage_main env false p
      = (.returned (true, some r),
         [SdkCall.createBlockStorage p.name p.description p.size p.datacenter_id
           p.server_id]) := by
  unfold block_storage_main create_block_storage
  have hv : validate_block_args p = Option.none := by
    unfold validate_block_args
    simp [hatt]
  simp only [hv, hst, hau, hsz, hn, hw, hcr, Bool.not_true, Bool.false_eq_true, if_false]
  simp

/-- Outside check mode, with the create call succeeding and `wait=false`,
a valid `state=present` shared storage invocation returns `changed=true`
with the created resource, its trace being exactly the one create call. -/
theorem shared_present_result (env : Env) (p : SharedStorageParams)
    (r : Resource) (hst : p.state = .present) (hau : truthy p.auth_token = true)
    (hn : truthy p.name = true) (hsz : truthyN p.size = true)
    (hatt : p.attach = false) (hdet : p.detach = false) (hw : p.wait = false)
    (hcr : env.createSharedStorageR p.name p.description p.size p.datacenter_id
      = .ok (some r)) :
    shared_storage_main env false p
      = (.returned (true, some r),
         [SdkCall.createSharedStorage p.name p.description p.size p.datacenter_id]) := by
  unfold shared_storage_main create_shared_storage
  have hv : validate_shared_args p = Option.none := by
    unfold validate_shared_args
    simp [hatt, hdet]
  simp only [hv, hst, hau, hsz, hn, hw, hcr, Bool.not_true, Bool.false_eq_true, if_false]
  simp

/-- Outside check mode, with the create call succeeding and `wait=false`,
a `state=present` SSH key invocation returns `changed=true` with the
created key, its trace being exactly the one create call — no existence
check precedes it. -/
theorem ssh_present_result (env : Env) (p : SshKeyParams)
    (r : Resource) (hst : p.state = .present) (hau : truthy p.auth_token = true)
    (hw : p.wait = false)
    (hcr : env.createSshKeyR p.name p.description p.public_key = .ok (some r)) :
    ssh_key_main env false p
      = (.returned (true, some r),
         [SdkCall.createSshKey p.name p.description p.public_key]) := by
  unfold ssh_key_main create_ssh_key
  simp only [hst, hau, hw, hcr, Bool.not_true, Bool.false_eq_true, if_false]
  simp

/-! ## Absent-state (delete) path lemmas -/

/-- Outside check mode, `state=absent` on an SSH key the resolver cannot
match fails with the not-found message; the trace is just the resolver
read — no delete call is issued, and no outcome with `changed=true` is
produced. -/
theorem ssh_absent_missing (env : Env) (p : SshKeyParams)
    (hst : p.state = .absent) (hau : truthy p.auth_token = true)
    (hk : truthy p.ssh_key_id = true)
    (hmiss : env.sshKeys p.ssh_key_id = Option.none) :
    ssh_key_main env false p
      = (.failed ("SSH key " ++ optStr p.ssh_key_id ++ " not found."),
         [SdkCall.getSshKey p.ssh_key_id true]) := by
  unfold ssh_key_main delete_ssh_key
  simp only [hst, hau, hk, hmiss, Bool.not_true, Bool.false_eq_true, if_false]

/-- In check mode, `state=absent` on a missing SSH key exits `changed=false`. -/
theorem ssh_absent_missing_check (env : Env) (p : SshKeyParams)
    (hst : p.state = .absent) (hau : truthy p.auth_token = true)
    (hk : truthy p.ssh_key_id = true)
    (hmiss : env.sshKeys p.ssh_key_id = Option.none) :
    ssh_key_main env true p
      = (.exited (.bool false), [SdkCall.getSshKey p.ssh_key_id true]) := by
  unfold ssh_key_main delete_ssh_key
  simp only [hst, hau, hk, hmiss, Bool.not_true, Bool.false_eq_true, if_false]
  simp

/-- Outside check mode, `state=absent` on a block storage name the resolver
cannot match still issues the delete call — with a `None` identifier. -/
theorem block_absent_missing (env : Env) (p : BlockStorageParams)
    (hst : p.state = .absent) (hau : truthy p.auth_token = true)
    (hn : truthy p.name = true) (hatt : p.attach = false)
    (hmiss : env.blockStorages p.name = Option.none) :
    SdkCall.deleteBlockStorage Option.none ∈ (block_storage_main env false p).2 := by
  unfold block_storage_main remove_block_storage
  have hv : validate_block_args p = Option.none := by
    unfold validate_block_args
    simp [hatt]
  simp only [hv, hst, hau, hn, hmiss, Bool.not_true, Bool.false_eq_true, if_false]
  split
  · simp
  · split
    · simp
    · simp

/-- In check mode, `state=absent` on a missing block storage exits
`changed=false` after only the resolver read. -/
theorem block_absent_missing_check (env : Env) (p : BlockStorageParams)
    (hst : p.state = .absent) (hau : truthy p.auth_token = true)
    (hn : truthy p.name = true) (hatt : p.attach = false)
    (hmiss : env.blockStorages p.name = Option.none) :
    block_storage_main env true p
      = (.exited (.bool false), [SdkCall.getBlockStorage p.name false]) := by
  unfold block_storage_main remove_block_storage
  have hv : validate_block_args p = Option.none := by
    unfold validate_block_args
    simp [hatt]
  simp only [hv, hst, hau, hn, hmiss, Bool.not_true, Bool.false_eq_true, if_false]
  simp

/-- Outside check mode, `state=absent` on a shared storage name the
resolver cannot match still issues the delete call — with a `None`
identifier. -/
theorem shared_absent_missing (env : Env) (p : SharedStorageParams)
    (hst : p.state = .absent) (hau : truthy p.auth_token = true)
    (hn : truthy p.name = true) (hatt : p.attach = false) (hdet : p.detach = false)
    (hmiss : env.sharedStorages p.name = Option.none) :
    SdkCall.deleteSharedStorage Option.none ∈ (shared_storage_main env false p).2 := by
  unfold shared_storage_main remove_shared_storage
  have hv : validate_shared_args p = Option.none := by
    unfold validate_shared_args
    simp [hatt, hdet]
  simp only [hv, hst, hau, hn, hmiss, Bool.not_true, Bool.false_eq_true, if_false]
  split
  · simp
  · split
    · simp
    · simp

/-- In check mode, `state=absent` on a missing shared storage exits
`changed=false` after only the resolver read. -/
theorem shared_absent_missing_check (env : Env) (p : SharedStorageParams)
    (hst : p.state = .absent) (hau : truthy p.auth_token = true)
    (hn : truthy p.name = true) (hatt : p.attach = false) (hdet : p.detach = false)
    (hmiss : env.sharedStorages p.name = Option.none) :
    shared_storage_main env true p
      = (.exited (.bool false), [SdkCall.getSharedStorage p.name false]) := by
  unfold shared_storage_main remove_shared_storage
  have hv : validate_shared_args p = Option.none := by
    unfold validate_shared_args
    simp [hatt, hdet]
  simp only [hv, hst, hau, hn, hmiss, Bool.not_true, Bool.false_eq_true, if_false]
  simp

/-! ## Concrete invocation parameters used by the witnesses -/

/-- Check-mode block storage update with attach requested. -/
def pC1 : BlockStorageParams :=
  { auth_token := some "token", block_storage := some "b1", server_id := some "s1",
    attach := true, state := .update }

/-- Block storage create whose name the resolver already knows. -/
def pC2 : BlockStorageParams :=
  { auth_token := some "token", name := some "x", size := some 20, wait := false }

/-- Shared storage create. -/
def pC2s : SharedStorageParams :=
  { auth_token := some "token", name := some "y", size := some 50, wait := false }

/-- SSH key create. -/
def pC2k : SshKeyParams :=
  { auth_token := some "token", name := some "kx", public_key := some "pk", wait := false }

/-- SSH key delete of a key the resolver cannot match. -/
def pC3 : SshKeyParams :=
  { auth_token := some "token", ssh_key_id := some "k1", state := .absent }

/-- Block storage delete of a name the resolver cannot match. -/
def pC3b : BlockStorageParams :=
  { auth_token := some "token", name := some "ghost", state := .absent }

/-- Shared storage delete of a name the resolver cannot match. -/
def pC3s : SharedStorageParams :=
  { auth_token := some "token", name := some "ghost", state := .absent }

/-- Block storage update with attach and detach both requested. -/
def pC4 : BlockStorageParams :=
  { auth_token := some "token", block_storage := some "b1", server_id := some "s1",
    attach := true, detach := true, state := .update }

/-- Shared storage update with attach and detach both requested. -/
def pC4s : SharedStorageParams :=
  { auth_token := some "token", shared_storage := some "ss1",
    servers := [{ id := "s1", rights := "R" }], server_id := some "s1",
    attach := true, detach := true, state := .update }

/-- Block storage update requesting both a rename and an attach. -/
def pC5 : BlockStorageParams :=
  { auth_token := some "token", block_storage := some "b1", name := some "b1-renamed",
    server_id := some "s1", attach := true, state := .update }

/-- Shared storage update requesting an attach with one server. -/
def pC7 : SharedStorageParams :=
  { auth_token := some "token", shared_storage := some "ss1",
    servers := [{ id := "s1", rights := "R" }], attach := true, state := .update }

/-- Shared storage update requesting a detach. -/
def pC9 : SharedStorageParams :=
  { auth_token := some "token", shared_storage := some "ss1", server_id := some "s1",
    detach := true, state := .update }

/-- Block storage update requesting a rename only. -/
def pC10 : BlockStorageParams :=
  { auth_token := some "token", block_storage := some "b1", name := some "nn",
    state := .update }

/-- Block storage update requesting nothing. -/
def pC10n : BlockStorageParams :=
  { auth_token := some "token", block_storage := some "b1", state := .update }

/-- Shared storage update requesting a rename only. -/
def pC10s : SharedStorageParams :=
  { auth_token := some "token", shared_storage := some "ss1", name := some "zz",
    state := .update }

/-- Shared storage update requesting nothing. -/
def pC10sn : SharedStorageParams :=
  { auth_token := some "token", shared_storage := some "ss1", state := .update }

/-- A resource status timeline that never leaves the transitional state. -/
def creatingAlways : Nat → ResStatus := fun _ => ResStatus.creating

/-! ## Claims -/

/-- Claim C1, amended: for every resource kind and every desired state, a
check-mode invocation never issues any mutating SDK call (no create,
modify, delete, attach, detach or password change reaches the connection);
however the `changed=` value it exits with is not always a boolean — at the
attach/detach decision points and in the SSH key create path the source
passes the raw lookup result or parameter instead (see the
counterexample). -/
theorem claim_C1_check_mode_never_mutates :
    ∀ (env : Env) (pb : BlockStorageParams) (ps : SharedStorageParams)
      (pk : SshKeyParams),
    mutCalls (block_storage_main env true pb).2 = [] ∧
    mutCalls (shared_storage_main env true ps).2 = [] ∧
    mutCalls (ssh_key_main env true pk).2 = [] :=
  fun env pb ps pk =>
    ⟨block_storage_main_check env pb, shared_storage_main_check env ps,
     ssh_key_main_check env pk⟩

/-- Claim C1, counterexample to the claim as stated: a check-mode block
storage update with `attach=true` exits with `changed=` set to the raw
server-id string returned by the resolver, not a would-change boolean
(it does still issue no mutating call). -/
theorem claim_C1_counterexample :
    block_storage_main envT true pC1
      = (.exited (.str "srv-1"),
         [SdkCall.getBlockStorage (some "b1") true, SdkCall.getServer (some "s1")]) ∧
    Value.isBool (.str "srv-1") = false :=
  ⟨rfl, rfl⟩

/-- Claim C2, amended: for every resource kind, `state=present` never
consults the resolver and always issues the create call, whether or not a
resource with the requested name already exists; when the create call
returns a resource (and `wait` is off), the module returns `changed=true`
with the created resource, the trace being exactly the one create call. -/
theorem claim_C2_present_always_creates :
    (∀ (env : Env) (p : BlockStorageParams), p.state = .present →
        truthy p.auth_token = true → truthy p.name = true → truthyN p.size = true →
        p.attach = false →
        SdkCall.createBlockStorage p.name p.description p.size p.datacenter_id p.server_id
          ∈ (block_storage_main env false p).2) ∧
    (∀ (env : Env) (p : BlockStorageParams) (r : Resource), p.state = .present →
        truthy p.auth_token = true → truthy p.name = true → truthyN p.size = true →
        p.attach = false → p.wait = false →
        env.createBlockStorageR p.name p.description p.size p.datacenter_id
          p.server_id = .ok (some r) →
        block_storage_main env false p
          = (.returned (true, some r),
             [SdkCall.createBlockStorage p.name p.description p.size p.datacenter_id
               p.server_id])) ∧
    (∀ (env : Env) (p : SharedStorageParams) (r : Resource), p.state = .present →
        truthy p.auth_token = true → truthy p.name = true → truthyN p.size = true →
        p.attach = false → p.detach = false → p.wait = false →
        env.createSharedStorageR p.name p.description p.size p.datacenter_id
          = .ok (some r) →
        shared_storage_main env false p
          = (.returned (true, some r),
             [SdkCall.createSharedStorage p.name p.description p.size p.datacenter_id])) ∧
    (∀ (env : Env) (p : SshKeyParams) (r : Resource), p.state = .present →
        truthy p.auth_token = true → p.wait = false →
        env.createSshKeyR p.name p.description p.public_key = .ok (some r) →
        ssh_key_main env false p
          = (.returned (true, some r),
             [SdkCall.createSshKey p.name p.description p.public_key])) :=
  ⟨block_present_creates, block_present_result, shared_present_result,
   ssh_present_result⟩

/-- Claim C2, counterexample to the claim as stated: the resolver knows a
block storage named `x`, yet `state=present` with `name=x` issues the
create call and returns `changed=true`. -/
theorem claim_C2_counterexample :
    envT.blockStorages (some "x") = some xT ∧
    block_storage_main envT false pC2
      = (.returned (true, some { id := "new-bs", name := "x" }),
         [SdkCall.createBlockStorage (some "x") Option.none (some 20)
           Option.none Option.none]) :=
  ⟨rfl, rfl⟩

/-- Claim C2, witness: the amended theorem applied to the concrete provider
and parameters. -/
theorem claim_C2_witness :
    SdkCall.createBlockStorage (some "x") Option.none (some 20) Option.none Option.none
      ∈ (block_storage_main envT false pC2).2 ∧
    block_storage_main envT false pC2
      = (.returned (true, some { id := "new-bs", name := "x" }),
         [SdkCall.createBlockStorage (some "x") Option.none (some 20)
           Option.none Option.none]) ∧
    shared_storage_main envT false pC2s
      = (.returned (true, some { id := "new-ss", name := "y" }),
         [SdkCall.createSharedStorage (some "y") Option.none (some 50) Option.none]) ∧
    ssh_key_main envT false pC2k
      = (.returned (true, some { id := "new-key", name := "kx" }),
         [SdkCall.createSshKey (some "kx") Option.none (some "pk")]) :=
  ⟨claim_C2_present_always_creates.1 envT pC2 rfl rfl rfl rfl rfl,
   claim_C2_present_always_creates.2.1 envT pC2
     { id := "new-bs", name := "x" } rfl rfl rfl rfl rfl rfl rfl,
   claim_C2_present_always_creates.2.2.1 envT pC2s
     { id := "new-ss", name := "y" } rfl rfl rfl rfl rfl rfl rfl rfl,
   claim_C2_present_always_creates.2.2.2 envT pC2k
     { id := "new-key", name := "kx" } rfl rfl rfl rfl⟩

/-- Claim C3, amended: `state=absent` on a nonexistent name is not a
uniform no-op.  The SSH key module fails with a not-found message (issuing
no delete call); the block and shared storage modules do issue the delete
call, with a `None` identifier; only in check mode do all three modules
exit `changed=false` without any mutating call. -/
theorem claim_C3_absent_missing :
    (∀ (env : Env) (p : SshKeyParams), p.state = .absent →
        truthy p.auth_token = true → truthy p.ssh_key_id = true →
        env.sshKeys p.ssh_key_id = Option.none →
        ssh_key_main env false p
          = (.failed ("SSH key " ++ optStr p.ssh_key_id ++ " not found."),
             [SdkCall.getSshKey p.ssh_key_id true])) ∧
    (∀ (env : Env) (p : SshKeyParams), p.state = .absent →
        truthy p.auth_token = true → truthy p.ssh_key_id = true →
        env.sshKeys p.ssh_key_id = Option.none →
        ssh_key_main env true p
          = (.exited (.bool false), [SdkCall.getSshKey p.ssh_key_id true])) ∧
    (∀ (env : Env) (p : BlockStorageParams), p.state = .absent →
        truthy p.auth_token = true → truthy p.name = true → p.attach = false →
        env.blockStorages p.name = Option.none →
        SdkCall.deleteBlockStorage Option.none ∈ (block_storage_main env false p).2) ∧
    (∀ (env : Env) (p : BlockStorageParams), p.state = .absent →
        truthy p.auth_token = true → truthy p.name = true → p.attach = false →
        env.blockStorages p.name = Option.none →
        block_storage_main env true p
          = (.exited (.bool false), [SdkCall.getBlockStorage p.name false])) ∧
    (∀ (env : Env) (p : SharedStorageParams), p.state = .absent →
        truthy p.auth_token = true → truthy p.name = true → p.attach = false →
        p.detach = false → env.sharedStorages p.name = Option.none →
        SdkCall.deleteSharedStorage Option.none ∈ (shared_storage_main env false p).2) ∧
    (∀ (env : Env) (p : SharedStorageParams), p.state = .absent →
        truthy p.auth_token = true → truthy p.name = true → p.attach = false →
        p.detach = false → env.sharedStorages p.name = Option.none →
        shared_storage_main env true p
          = (.exited (.bool false), [SdkCall.getSharedStorage p.name false])) :=
  ⟨ssh_absent_missing, ssh_absent_missing_check, block_absent_missing,
   block_absent_missing_check, shared_absent_missing, shared_absent_missing_check⟩

/-- Claim C3, counterexample to the claim as stated: deleting SSH key `k1`
that the resolver cannot match is not a `changed=false` no-op — the module
terminates with a not-found failure. -/
theorem claim_C3_counterexample :
    envT.sshKeys (some "k1") = Option.none ∧
    ssh_key_main envT false pC3
      = (.failed "SSH key k1 not found.", [SdkCall.getSshKey (some "k1") true]) :=
  ⟨rfl, rfl⟩

/-- Claim C3, witness: the amended theorem applied to the concrete provider
and parameters. -/
theorem claim_C3_witness :
    ssh_key_main envT false pC3
      = (.failed "SSH key k1 not found.", [SdkCall.getSshKey (some "k1") true]) ∧
    ssh_key_main envT true pC3
      = (.exited (.bool false), [SdkCall.getSshKey (some "k1") true]) ∧
    SdkCall.deleteBlockStorage Option.none ∈ (block_storage_main envT false pC3b).2 ∧
    block_storage_main envT true pC3b
      = (.exited (.bool false), [SdkCall.getBlockStorage (some "ghost") false]) ∧
    SdkCall.deleteSharedStorage Option.none ∈ (shared_storage_main envT false pC3s).2 ∧
    shared_storage_main envT true pC3s
      = (.exited (.bool false), [SdkCall.getSharedStorage (some "ghost") false]) :=
  ⟨claim_C3_absent_missing.1 envT pC3 rfl rfl rfl rfl,
   claim_C3_absent_missing.2.1 envT pC3 rfl rfl rfl rfl,
   claim_C3_absent_missing.2.2.1 envT pC3b rfl rfl rfl rfl rfl,
   claim_C3_absent_missing.2.2.2.1 envT pC3b rfl rfl rfl rfl rfl,
   claim_C3_absent_missing.2.2.2.2.1 envT pC3s rfl rfl rfl rfl rfl rfl,
   claim_C3_absent_missing.2.2.2.2.2 envT pC3s rfl rfl rfl rfl rfl rfl⟩

/-- Claim C4: for the block and shared storage modules, an invocation
setting both `attach=true` and `detach=true` is rejected by the argument
validation before any remote call — the run fails with the
mutual-exclusion message and an empty call trace. -/
theorem claim_C4_attach_detach_exclusive :
    ∀ (env : Env) (c : Bool) (pb : BlockStorageParams) (ps : SharedStorageParams),
    pb.attach = true → pb.detach = true → ps.attach = true → ps.detach = true →
    block_storage_main env c pb
      = (.failed "parameters are mutually exclusive: attach|detach", []) ∧
    shared_storage_main env c ps
      = (.failed "parameters are mutually exclusive: attach|detach", []) := by
  intro env c pb ps hba hbd hsa hsd
  constructor
  · unfold block_storage_main validate_block_args
    simp [hba, hbd]
  · unfold shared_storage_main validate_shared_args
    simp [hsa, hsd]

/-- Claim C4, witness: concrete invocations with both flags set. -/
theorem claim_C4_witness :
    block_storage_main envT false pC4
      = (.failed "parameters are mutually exclusive: attach|detach", []) ∧
    shared_storage_main envT false pC4s
      = (.failed "parameters are mutually exclusive: attach|detach", []) :=
  claim_C4_attach_detach_exclusive envT false pC4 pC4s rfl rfl rfl rfl

/-- Claim C5: in one `state=update` block storage invocation requesting
both a rename and an attach, if the modify call succeeds and the attach
call then fails, the module terminates in failure with the trace being
exactly resolver read, modify, attach — no compensating call follows, so
the resource is left renamed but not attached. -/
theorem claim_C5_no_rollback_on_partial_failure
    (env : Env) (p : BlockStorageParams) (bs bs2 : Resource) (e : String)
    (hst : p.state = .update) (hau : truthy p.auth_token = true)
    (hbsid : truthy p.block_storage = true)
    (hfound : env.blockStorages p.block_storage = some bs)
    (hname : truthy p.name = true) (hatt : p.attach = true) (hdet : p.detach = false)
    (hsrv : truthy p.server_id = true)
    (hmod : env.modifyBlockStorageR bs.id p.name p.description = .ok (some bs2))
    (hattf : env.attachBlockStorageR bs2.id p.server_id = .error e) :
    block_storage_main env false p
      = (.failed e,
         [SdkCall.getBlockStorage p.block_storage true,
          SdkCall.modifyBlockStorage bs.id p.name p.description,
          SdkCall.attachBlockStorage bs2.id p.server_id]) := by
  unfold block_storage_main update_block_storage upd_bs_name_desc upd_bs_attach
    upd_bs_detach
  have hv : validate_block_args p = Option.none := by
    unfold validate_block_args
    simp [hdet, hsrv]
  simp [hv, hst, hau, hbsid, hfound, hname, hatt, hmod, hattf, subscriptId]

/-- Claim C5, witness: the concrete provider renames `b1` successfully and
then fails the attach; the run fails with no further calls. -/
theorem claim_C5_witness :
    block_storage_main envT false pC5
      = (.failed "ATTACH_FAILED",
         [SdkCall.getBlockStorage (some "b1") true,
          SdkCall.modifyBlockStorage "bs-1-id" (some "b1-renamed") Option.none,
          SdkCall.attachBlockStorage "bs-1-id" (some "s1")]) :=
  claim_C5_no_rollback_on_partial_failure envT pC5 bsT
    { id := "bs-1-id", name := "b1-renamed" } "ATTACH_FAILED"
    rfl rfl rfl rfl rfl rfl rfl rfl rfl rfl

/-- Claim C6: outside check mode, `state=absent` with an `ssh_key_id` the
resolver cannot match terminates with the not-found failure; the trace is
only the resolver read — no delete call is issued and no mutating call at
all, so `changed` is never reported true. -/
theorem claim_C6_ssh_delete_not_found
    (env : Env) (p : SshKeyParams) (hst : p.state = .absent)
    (hau : truthy p.auth_token = true) (hk : truthy p.ssh_key_id = true)
    (hmiss : env.sshKeys p.ssh_key_id = Option.none) :
    ssh_key_main env false p
      = (.failed ("SSH key " ++ optStr p.ssh_key_id ++ " not found."),
         [SdkCall.getSshKey p.ssh_key_id true]) ∧
    mutCalls (ssh_key_main env false p).2 = [] := by
  have h := ssh_absent_missing env p hst hau hk hmiss
  refine ⟨h, ?_⟩
  rw [h]
  rfl

/-- Claim C6, witness: deleting ssh key `k1` on a provider with no keys. -/
theorem claim_C6_witness :
    ssh_key_main envT false pC3
      = (.failed "SSH key k1 not found.", [SdkCall.getSshKey (some "k1") true]) ∧
    mutCalls (ssh_key_main envT false pC3).2 = [] :=
  claim_C6_ssh_delete_not_found envT pC3 rfl rfl rfl rfl

/-- Claim C7: outside check mode, `state=update` with `attach=true`, a
nonempty `servers` list and `detach` unset, on a shared storage the
resolver finds and with no other change requested, issues exactly one
attach call whose server list is exactly the `servers` parameter, and
returns `changed=true`. -/
theorem claim_C7_shared_attach_exact
    (env : Env) (p : SharedStorageParams) (ss ss2 : Resource)
    (hst : p.state = .update) (hau : truthy p.auth_token = true)
    (hssid : truthy p.shared_storage = true)
    (hfound : env.sharedStorages p.shared_storage = some ss)
    (hn : truthy p.name = false) (hd : truthy p.description = false)
    (hsz : truthyN p.size = false) (hpw : truthy p.password = false)
    (hatt : p.attach = true) (hdet : p.detach = false)
    (hsrv : p.servers.isEmpty = false)
    (hok : env.attachServerSharedStorageR ss.id p.servers = .ok (some ss2)) :
    shared_storage_main env false p
      = (.returned (true, some ss2),
         [SdkCall.getSharedStorage p.shared_storage true,
          SdkCall.attachServerSharedStorage ss.id p.servers]) := by
  unfold shared_storage_main update_shared_storage upd_ss_name_desc_size
    upd_ss_password upd_ss_attach upd_ss_detach
  have hv : validate_shared_args p = Option.none := by
    unfold validate_shared_args
    simp [hdet, hsrv]
  rcases hp : p.password with _ | pw
  · simp [hv, hst, hau, hssid, hfound, hn, hd, hsz, hatt, hdet, hok, subscriptId]
  · have hemp : pw.isEmpty = true := by
      rw [hp] at hpw
      simpa [truthy] using hpw
    simp [hv, hst, hau, hssid, hfound, hn, hd, hsz, hatt, hdet, hok, hemp, subscriptId]

/-- Claim C7, witness: attaching `ss1` to the one-server list on the
concrete provider issues exactly that attach call and returns
`changed=true`. -/
theorem claim_C7_witness :
    shared_storage_main envT false pC7
      = (.returned (true, some { id := "ss-1-id", name := "attached" }),
         [SdkCall.getSharedStorage (some "ss1") true,
          SdkCall.attachServerSharedStorage "ss-1-id" [{ id := "s1", rights := "R" }]]) :=
  claim_C7_shared_attach_exact envT pC7 ssT { id := "ss-1-id", name := "attached" }
    rfl rfl rfl rfl rfl rfl rfl rfl rfl rfl rfl rfl

/-- Claim C8: the completion waiter polls the status at multiples of the
fixed interval; it returns as soon as a poll finds the status out of the
transitional "creating" state, every earlier poll having seen "creating";
it times out exactly when the elapsed time exceeds the timeout, every poll
having seen "creating"; and with `timeout < interval` (parameters the code
does not reject) it performs exactly one poll before timing out when the
resource is still provisioning. -/
theorem claim_C8_waiter_spec (statusAt : Nat → ResStatus) (timeout interval : Nat)
    (hi : 1 ≤ interval) :
    (∀ t q, wait_for_resource_creation_completion statusAt timeout interval
        = .completed t q →
        statusAt t ≠ .creating ∧ t = q * interval ∧ 1 ≤ q ∧
        (q - 1) * interval ≤ timeout ∧
        ∀ j, 1 ≤ j → j < q → statusAt (j * interval) = .creating) ∧
    (∀ q, wait_for_resource_creation_completion statusAt timeout interval
        = .timedOut q →
        timeout < q * interval ∧
        ∀ j, 1 ≤ j → j ≤ q → statusAt (j * interval) = .creating) ∧
    (timeout < interval → statusAt interval = .creating →
        wait_for_resource_creation_completion statusAt timeout interval
          = .timedOut 1) := by
  obtain ⟨hc, ht⟩ := waitLoop_inv statusAt timeout interval hi (timeout + 2) 0 0
    (by omega) (by simp)
  refine ⟨?_, ?_, ?_⟩
  · intro t q h
    obtain ⟨h1, h2, h3, h4, h5⟩ := hc t q h
    exact ⟨h1, h2, by omega, h4, fun j hj1 hj2 => h5 j (by omega) hj2⟩
  · intro q h
    obtain ⟨h1, _, h3⟩ := ht q h
    exact ⟨h1, fun j hj1 hj2 => h3 j (by omega) hj2⟩
  · exact wait_one_poll statusAt timeout interval

/-- Claim C8, witness: with timeout 3 and interval 5 over a resource that
never leaves "creating", the waiter times out after exactly one poll. -/
theorem claim_C8_witness :
    wait_for_resource_creation_completion creatingAlways 3 5 = .timedOut 1 :=
  (claim_C8_waiter_spec creatingAlways 3 5 (by omega)).2.2 (by omega) rfl

/-- Claim C9: every non-check-mode `state=update` shared storage invocation
with `detach=true` on a storage the resolver finds terminates in failure
(the call site passes three positional arguments to the four-parameter
detach helper, raising `TypeError` before the helper body runs), and the
detach SDK call never appears in the trace. -/
theorem claim_C9_shared_detach_always_fails
    (env : Env) (p : SharedStorageParams) (ss : Resource)
    (hdet : p.detach = true) (hst : p.state = .update)
    (hfound : env.sharedStorages p.shared_storage = some ss) :
    (∃ msg, (shared_storage_main env false p).1 = Outcome.failed msg) ∧
    (shared_storage_main env false p).2.filter isSharedDetachCall = [] :=
  shared_storage_main_detfail env p ss hdet hst hfound

/-- Claim C9, witness: detaching `ss1` on the concrete provider fails and
issues no detach SDK call. -/
theorem claim_C9_witness :
    (∃ msg, (shared_storage_main envT false pC9).1 = Outcome.failed msg) ∧
    (shared_storage_main envT false pC9).2.filter isSharedDetachCall = [] :=
  claim_C9_shared_detach_always_fails envT pC9 ssT rfl rfl rfl

/-- Claim C10: for the block and shared storage modules, a non-check-mode
`state=update` invocation reports `changed=true` only if at least one
mutating SDK call was issued; and an update with every mutable attribute
unset and attach/detach off, on a resource the resolver finds, returns
`changed=false` with the resolved snapshot after only the resolver read. -/
theorem claim_C10_update_changed_iff_mutation :
    (∀ (env : Env) (p : BlockStorageParams) (r : Option Resource),
        p.state = .update →
        (block_storage_main env false p).1 = .returned (true, r) →
        mutCalls (block_storage_main env false p).2 ≠ []) ∧
    (∀ (env : Env) (p : SharedStorageParams) (r : Option Resource),
        p.state = .update →
        (shared_storage_main env false p).1 = .returned (true, r) →
        mutCalls (shared_storage_main env false p).2 ≠ []) ∧
    (∀ (env : Env) (p : BlockStorageParams) (bs : Resource),
        p.state = .update → truthy p.auth_token = true →
        truthy p.block_storage = true → truthy p.name = false →
        truthy p.description = false → p.attach = false → p.detach = false →
        env.blockStorages p.block_storage = some bs →
        block_storage_main env false p
          = (.returned (false, some bs),
             [SdkCall.getBlockStorage p.block_storage true])) ∧
    (∀ (env : Env) (p : SharedStorageParams) (ss : Resource),
        p.state = .update → truthy p.auth_token = true →
        truthy p.shared_storage = true → truthy p.name = false →
        truthy p.description = false → truthyN p.size = false →
        truthy p.password = false → p.attach = false → p.detach = false →
        env.sharedStorages p.shared_storage = some ss →
        shared_storage_main env false p
          = (.returned (false, some ss),
             [SdkCall.getSharedStorage p.shared_storage true])) :=
  ⟨fun env p r hst h => block_storage_main_changed env p r hst h,
   fun env p r hst h => shared_storage_main_changed env p r hst h,
   fun env p bs hst hau hbsid hn hd ha hdet hbs =>
     block_storage_main_noop env p bs hst hau hbsid hn hd ha hdet hbs,
   fun env p ss hst hau hssid hn hd hsz hpw ha hdet hss =>
     shared_storage_main_noop env p ss hst hau hssid hn hd hsz hpw ha hdet hss⟩

/-- Claim C10, witness: on the concrete provider, a rename-only update
reports `changed=true` with a nonempty mutating trace, and a no-op update
reports `changed=false` with only the resolver read. -/
theorem claim_C10_witness :
    mutCalls (block_storage_main envT false pC10).2 ≠ [] ∧
    mutCalls (shared_storage_main envT false pC10s).2 ≠ [] ∧
    block_storage_main envT false pC10n
      = (.returned (false, some bsT), [SdkCall.getBlockStorage (some "b1") true]) ∧
    shared_storage_main envT false pC10sn
      = (.returned (false, some ssT), [SdkCall.getSharedStorage (some "ss1") true]) :=
  ⟨claim_C10_update_changed_iff_mutation.1 envT pC10
     (some { id := "bs-1-id", name := "nn" }) rfl rfl,
   claim_C10_update_changed_iff_mutation.2.1 envT pC10s
     (some { id := "ss-1-id", name := "zz" }) rfl rfl,
   claim_C10_update_changed_iff_mutation.2.2.1 envT pC10n bsT
     rfl rfl rfl rfl rfl rfl rfl rfl,
   claim_C10_update_changed_iff_mutation.2.2.2 envT pC10sn ssT
     rfl rfl rfl rfl rfl rfl rfl rfl rfl rfl⟩

end OneAndOne
